import Mathlib

/-!
# Zone and route repositories over a document store

A shallow embedding of `src/models/zonaModel.js` and `src/models/rutasModel.js`, and of
the handlers of `src/controllers/zonaController.js` and `src/controllers/rutasController.js`.

* JavaScript values are the inductive type `JSVal`; an object is an association list
  of own properties, read with `getProp`, written with `setProp`, copied with `spread`.
* A collection of the document store is a list of documents in store order; every
  repository method is a function from the collection before the call to the value
  it returns and the collection after the call.
* `Math.random()` is a parameter `r : ℚ`, a binary64 number, and the product
  `Math.random() * 900` is the binary64 product `roundDouble (r * 900)`;
  `new Date().toISOString()` is a parameter `instante : String`, and the document
  identifier and position the store picks for a new document are parameters too.
-/

/-! ## JavaScript values -/

/-- JavaScript values as they occur in request bodies and stored documents. -/
inductive JSVal where
  | undefined : JSVal
  | null : JSVal
  | bool (b : Bool) : JSVal
  | num (q : ℚ) : JSVal
  | str (s : String) : JSVal
  | arr (xs : List JSVal) : JSVal
  | obj (fs : List (String × JSVal)) : JSVal

/-- An object: its own properties, key and value. -/
abbrev JSObj := List (String × JSVal)

/-- ToBoolean: `undefined`, `null`, `false`, `0` and the empty string are falsy,
every array and every object is truthy. -/
def truthy : JSVal → Bool
  | .undefined => false
  | .null => false
  | .bool b => b
  | .num q => decide (q ≠ 0)
  | .str s => decide (s ≠ "")
  | .arr _ => true
  | .obj _ => true

/-- The operator `a || b`. -/
def jsOr (a b : JSVal) : JSVal := if truthy a then a else b

/-- Own property lookup. -/
def findProp : JSObj → String → Option JSVal
  | [], _ => none
  | (k, v) :: rest, key => if k = key then some v else findProp rest key

/-- Property read `o.key`: `undefined` when the object has no such property. -/
def getProp (o : JSObj) (key : String) : JSVal := (findProp o key).getD .undefined

/-- Whether `key` is an own property of `o`. -/
def hasProp (o : JSObj) (key : String) : Bool := (findProp o key).isSome

/-- Property write `o.key = v`: overwrites in place, or adds the property at the end. -/
def setProp : JSObj → String → JSVal → JSObj
  | [], key, v => [(key, v)]
  | (k, w) :: rest, key, v =>
      if k = key then (k, v) :: rest else (k, w) :: setProp rest key v

/-- Object spread `{...target, ...src}`: every own key of `src` is read from `src`
and written onto `target`. -/
def spread (target src : JSObj) : JSObj :=
  (src.map Prod.fst).foldl (fun acc k => setProp acc k (getProp src k)) target

/-! ## The document store -/

/-- A stored document: the identifier the store assigned and the document data. -/
structure Doc where
  id : String
  data : JSObj

/-- What a repository call yields: the value it resolves to and the collection
afterwards. -/
structure Outcome (α : Type) where
  ret : α
  store : List Doc

/-- Modelled from the spec: the document store of `require('../firebase')`, whose
contract is `add(record) -> generatedDocId`. The store picks the identifier `docId`
of the new document and the place `pos` it takes in store order. -/
def Store.add (c : List Doc) (pos : Nat) (docId : String) (record : JSObj) : List Doc :=
  c.take pos ++ ⟨docId, record⟩ :: c.drop pos

/-- The equality filter `field == value` against a string. -/
def fieldEq (field value : String) (d : Doc) : Bool :=
  match getProp d.data field with
  | .str s => decide (s = value)
  | _ => false

/-- Modelled from the spec: the document store of `require('../firebase')`, whose
contract is `query(field, "==", value).get() -> matching documents`, in store order. -/
def Store.whereEq (c : List Doc) (field value : String) : List Doc :=
  c.filter (fieldEq field value)

/-- Modelled from the spec: the document store of `require('../firebase')`, whose
contract is `docRef.update(partialFields) -> void`, a partial field overwrite of the
document the reference `ref` names. -/
def Store.update (c : List Doc) (ref : String) (fields : JSObj) : List Doc :=
  c.map (fun d => if d.id = ref then ⟨d.id, spread d.data fields⟩ else d)

/-- Modelled from the spec: the document store of `require('../firebase')`, whose
contract is `docRef.delete() -> void` on the document the reference `ref` names. -/
def Store.delete (c : List Doc) (ref : String) : List Doc :=
  c.filter (fun d => decide (d.id ≠ ref))

/-- The store assigns pairwise distinct identifiers to the documents of a collection. -/
def Store.distinctIds (c : List Doc) : Prop := (c.map Doc.id).Nodup

/-! ## Identifier and date generation -/

/-- Rounding of a rational to the nearest integer, a tie going to the even one. -/
def roundInt (q : ℚ) : Int :=
  let n := ⌊q⌋
  if q - n < 1 / 2 then n
  else if 1 / 2 < q - n then n + 1
  else if n % 2 = 0 then n else n + 1

/-- The step of the binary64 grid around a positive `a`: `2 ^ (e - 52)` for `a` in
`[2 ^ e, 2 ^ (e + 1))`, and `2 ^ (-1074)` below `2 ^ (-1022)`. -/
def gridStep (a : ℚ) : ℚ := 2 ^ (max (Int.log 2 a) (-1022) - 52)

/-- IEEE-754 binary64 rounding, round to nearest with ties to even, of the exact value
`x`, subnormal results included; overflow is not modelled (every value rounded here is
below 900). -/
def roundDouble (x : ℚ) : ℚ :=
  (if x < 0 then -1 else 1) * (roundInt (|x| / gridStep |x|) * gridStep |x|)

/-- A rational that is a binary64 number: rounding leaves it as it is. -/
def esDouble (r : ℚ) : Prop := roundDouble r = r

/-- The expression `Math.floor(Math.random() * 900) + 100` at the draw `r`: the product
is the binary64 product. -/
def randomNum (r : ℚ) : Int := ⌊roundDouble (r * 900)⌋ + 100

/-- The expression `new Date().toISOString().split('T')[0]` at the timestamp `instante`:
the characters before the first `'T'`. -/
def fechaActual (instante : String) : String :=
  String.mk (instante.data.takeWhile (fun ch => decide (ch ≠ 'T')))

/-! ## ZonaModel -/

namespace ZonaModel

/-- The object literal `nuevaZona` of `create`. -/
def nuevaZona (r : ℚ) (zonaData : JSObj) : JSObj :=
  let nombre_zona := getProp zonaData "nombre_zona"
  let estado := getProp zonaData "estado"
  let municipios_incluidos := getProp zonaData "municipios_incluidos"
  let codigos_postales_relacionados := getProp zonaData "codigos_postales_relacionados"
  let id_zona := JSVal.str ("me" ++ toString (randomNum r))
  [("id_zona", id_zona),
   ("nombre_zona", nombre_zona),
   ("estado", estado),
   ("municipios_incluidos", jsOr municipios_incluidos (.arr [])),
   ("codigos_postales_relacionados", jsOr codigos_postales_relacionados (.arr []))]

/-- The method `ZonaModel.create(zonaData)`. -/
def create (c : List Doc) (r : ℚ) (pos : Nat) (docId : String) (zonaData : JSObj) :
    Outcome JSObj :=
  let id_zona := JSVal.str ("me" ++ toString (randomNum r))
  let nueva := nuevaZona r zonaData
  { ret := spread [("id_zona", id_zona)] nueva
    store := Store.add c pos docId nueva }

/-- The method `ZonaModel.getAll()`. -/
def getAll (c : List Doc) : List JSObj :=
  c.map (fun doc => spread [("id", .str doc.id)] doc.data)

/-- The method `ZonaModel.getById(id_zona)`. -/
def getById (c : List Doc) (id_zona : String) : Option JSObj :=
  match Store.whereEq c "id_zona" id_zona with
  | [] => none
  | d :: _ => some (spread [("id", .str d.id)] d.data)

/-- The object `filteredUpdateData` of `update`, built by its four guarded writes. -/
def filteredUpdateData (updateData : JSObj) : JSObj :=
  let f0 : JSObj := []
  let f1 := if truthy (getProp updateData "nombre_zona")
    then setProp f0 "nombre_zona" (getProp updateData "nombre_zona") else f0
  let f2 := if truthy (getProp updateData "estado")
    then setProp f1 "estado" (getProp updateData "estado") else f1
  let f3 := if truthy (getProp updateData "municipios_incluidos")
    then setProp f2 "municipios_incluidos" (getProp updateData "municipios_incluidos") else f2
  if truthy (getProp updateData "codigos_postales_relacionados")
    then setProp f3 "codigos_postales_relacionados"
      (getProp updateData "codigos_postales_relacionados")
    else f3

/-- The method `ZonaModel.update(id_zona, updateData)`. -/
def update (c : List Doc) (id_zona : String) (updateData : JSObj) : Outcome (Option JSObj) :=
  match Store.whereEq c "id_zona" id_zona with
  | [] => { ret := none, store := c }
  | d :: _ =>
      let filtered := filteredUpdateData updateData
      { ret := some (spread [("id_zona", .str id_zona)] filtered)
        store := Store.update c d.id filtered }

/-- The method `ZonaModel.delete(id_zona)`: one `doc.ref.delete()` per matching document. -/
def delete (c : List Doc) (id_zona : String) : Outcome Bool :=
  match Store.whereEq c "id_zona" id_zona with
  | [] => { ret := false, store := c }
  | d :: ds => { ret := true, store := (d :: ds).foldl (fun s doc => Store.delete s doc.id) c }

end ZonaModel

/-! ## RutaModel -/

namespace RutaModel

/-- The object literal `nuevaRuta` of `create`. -/
def nuevaRuta (r : ℚ) (instante : String) (rutaData : JSObj) : JSObj :=
  let id_ruta := JSVal.str ("rut" ++ toString (randomNum r))
  let fecha_creacion := JSVal.str (fechaActual instante)
  setProp (spread [("id_ruta", id_ruta)] rutaData) "fecha_creacion" fecha_creacion

/-- The method `RutaModel.create(rutaData)`. -/
def create (c : List Doc) (r : ℚ) (instante : String) (pos : Nat) (docId : String)
    (rutaData : JSObj) : Outcome JSObj :=
  let id_ruta := JSVal.str ("rut" ++ toString (randomNum r))
  let nueva := nuevaRuta r instante rutaData
  { ret := spread [("id_ruta", id_ruta)] nueva
    store := Store.add c pos docId nueva }

/-- The method `RutaModel.getAll()`. -/
def getAll (c : List Doc) : List JSObj :=
  c.map (fun doc => spread [("id", .str doc.id)] doc.data)

/-- The method `RutaModel.getById(id_ruta)`. -/
def getById (c : List Doc) (id_ruta : String) : Option JSObj :=
  match Store.whereEq c "id_ruta" id_ruta with
  | [] => none
  | d :: _ => some (spread [("id", .str d.id)] d.data)

/-- The object literal `datosConFecha` of `update`. -/
def datosConFecha (instante : String) (datosActualizar : JSObj) : JSObj :=
  setProp (spread [] datosActualizar) "fecha_actualizacion" (.str (fechaActual instante))

/-- The method `RutaModel.update(id_ruta, datosActualizar)`. -/
def update (c : List Doc) (instante : String) (id_ruta : String) (datosActualizar : JSObj) :
    Outcome (Option JSObj) :=
  match Store.whereEq c "id_ruta" id_ruta with
  | [] => { ret := none, store := c }
  | d :: _ =>
      let datos := datosConFecha instante datosActualizar
      { ret := some (spread [("id_ruta", .str id_ruta)] datos)
        store := Store.update c d.id datos }

/-- The method `RutaModel.delete(id_ruta)`: deletes the first matching document only. -/
def delete (c : List Doc) (id_ruta : String) : Outcome Bool :=
  match Store.whereEq c "id_ruta" id_ruta with
  | [] => { ret := false, store := c }
  | d :: _ => { ret := true, store := Store.delete c d.id }

/-- The method `RutaModel.getRutasByZona(id_zona)`. -/
def getRutasByZona (c : List Doc) (id_zona : String) : List JSObj :=
  (Store.whereEq c "id_zona_asociada" id_zona).map
    (fun doc => spread [("id", .str doc.id)] doc.data)

end RutaModel

/-! ## Reachable states of the routes collection -/

/-- The states of the routes collection that calls of `RutaModel.create`,
`RutaModel.update` and `RutaModel.delete` reach from the empty collection; the store
gives every new document an identifier no stored document has. -/
inductive RutaModel.Reachable : List Doc → Prop where
  | empty : RutaModel.Reachable []
  | create (col : List Doc) (r : ℚ) (instante : String) (pos : Nat) (docId : String)
      (rutaData : JSObj) :
      RutaModel.Reachable col → 0 ≤ r → r < 1 → esDouble r → docId ∉ col.map Doc.id →
      RutaModel.Reachable (RutaModel.create col r instante pos docId rutaData).store
  | update (col : List Doc) (instante id_ruta : String) (datosActualizar : JSObj) :
      RutaModel.Reachable col →
      RutaModel.Reachable (RutaModel.update col instante id_ruta datosActualizar).store
  | delete (col : List Doc) (id_ruta : String) :
      RutaModel.Reachable col → RutaModel.Reachable (RutaModel.delete col id_ruta).store

/-! ## Handlers

A handler reads the request, awaits one repository call and sends one response. The
awaited call is a parameter: it yields the value the repository method resolves to, or
the `message` of the error it throws. -/

/-- The response a handler sends with `res.status(status).json(body)`. -/
structure Response where
  status : Nat
  body : JSVal

namespace ZonaController

/-- The handler `ZonaController.createZona`. -/
def createZona (body : JSObj) (create : JSObj → Except String JSObj) : Response :=
  let nombre_zona := getProp body "nombre_zona"
  let estado := getProp body "estado"
  let municipios_incluidos := getProp body "municipios_incluidos"
  let codigos_postales_relacionados := getProp body "codigos_postales_relacionados"
  match create [("nombre_zona", nombre_zona), ("estado", estado),
      ("municipios_incluidos", municipios_incluidos),
      ("codigos_postales_relacionados", codigos_postales_relacionados)] with
  | .ok resultado =>
      ⟨201, .obj [("mensaje", .str "Zona creada exitosamente"),
        ("id_zona", getProp resultado "id_zona")]⟩
  | .error message =>
      ⟨500, .obj [("error", .str "Error al crear la zona"), ("detalle", .str message)]⟩

/-- The handler `ZonaController.getAllZonas`. -/
def getAllZonas (getAll : Except String (List JSObj)) : Response :=
  match getAll with
  | .ok zonas => ⟨200, .arr (zonas.map JSVal.obj)⟩
  | .error message =>
      ⟨500, .obj [("error", .str "Error al obtener las zonas"), ("detalle", .str message)]⟩

/-- The handler `ZonaController.getZonaById`. -/
def getZonaById (id_zona : String) (getById : String → Except String (Option JSObj)) :
    Response :=
  match getById id_zona with
  | .ok none => ⟨404, .obj [("error", .str "No se encontró la zona con el ID especificado")]⟩
  | .ok (some zona) => ⟨200, .obj zona⟩
  | .error message =>
      ⟨500, .obj [("error", .str "Error al obtener la zona"), ("detalle", .str message)]⟩

/-- The handler `ZonaController.updateZona`. -/
def updateZona (id_zona : String) (body : JSObj)
    (update : String → JSObj → Except String (Option JSObj)) : Response :=
  let updateData := body
  match update id_zona updateData with
  | .ok none => ⟨404, .obj [("error", .str "No se encontró la zona con el ID especificado")]⟩
  | .ok (some _) =>
      ⟨200, .obj [("mensaje", .str "Zona actualizada exitosamente"), ("id_zona", .str id_zona)]⟩
  | .error message =>
      ⟨500, .obj [("error", .str "Error al actualizar la zona"), ("detalle", .str message)]⟩

/-- The handler `ZonaController.deleteZona`. -/
def deleteZona (id_zona : String) (delete : String → Except String Bool) : Response :=
  match delete id_zona with
  | .ok false => ⟨404, .obj [("error", .str "No se encontró la zona con el ID especificado")]⟩
  | .ok true =>
      ⟨200, .obj [("mensaje", .str "Zona eliminada exitosamente"), ("id_zona", .str id_zona)]⟩
  | .error message =>
      ⟨500, .obj [("error", .str "Error al eliminar la zona"), ("detalle", .str message)]⟩

end ZonaController

namespace RutaController

/-- The handler `RutaController.getAllRutas`. -/
def getAllRutas (getAll : Except String (List JSObj)) : Response :=
  match getAll with
  | .ok rutas => ⟨200, .arr (rutas.map JSVal.obj)⟩
  | .error message =>
      ⟨500, .obj [("error", .str "Error al obtener las rutas"), ("detalle", .str message)]⟩

/-- The handler `RutaController.getRutaById`. -/
def getRutaById (id_ruta : String) (getById : String → Except String (Option JSObj)) :
    Response :=
  match getById id_ruta with
  | .ok none => ⟨404, .obj [("error", .str "No se encontró la ruta con el ID especificado")]⟩
  | .ok (some ruta) => ⟨200, .obj ruta⟩
  | .error message =>
      ⟨500, .obj [("error", .str "Error al obtener la ruta"), ("detalle", .str message)]⟩

/-- The handler `RutaController.createRuta`. -/
def createRuta (body : JSObj) (create : JSObj → Except String JSObj) : Response :=
  let nombre_ruta := getProp body "nombre_ruta"
  let id_zona_asociada := getProp body "id_zona_asociada"
  let ubicaciones := getProp body "ubicaciones"
  match create [("nombre_ruta", nombre_ruta), ("id_zona_asociada", id_zona_asociada),
      ("ubicaciones", ubicaciones)] with
  | .ok resultado =>
      ⟨201, .obj [("mensaje", .str "Ruta creada exitosamente"),
        ("id_ruta", getProp resultado "id_ruta")]⟩
  | .error message =>
      ⟨500, .obj [("error", .str "Error al crear la ruta"), ("detalle", .str message)]⟩

/-- The handler `RutaController.updateRuta`. -/
def updateRuta (id_ruta : String) (body : JSObj)
    (update : String → JSObj → Except String (Option JSObj)) : Response :=
  let datosActualizar := body
  match update id_ruta datosActualizar with
  | .ok none => ⟨404, .obj [("error", .str "No se encontró la ruta con el ID especificado")]⟩
  | .ok (some _) =>
      ⟨200, .obj [("mensaje", .str "Ruta actualizada exitosamente"), ("id_ruta", .str id_ruta)]⟩
  | .error message =>
      ⟨500, .obj [("error", .str "Error al actualizar la ruta"), ("detalle", .str message)]⟩

/-- The handler `RutaController.deleteRuta`. -/
def deleteRuta (id_ruta : String) (delete : String → Except String Bool) : Response :=
  match delete id_ruta with
  | .ok false => ⟨404, .obj [("error", .str "No se encontró la ruta con el ID especificado")]⟩
  | .ok true =>
      ⟨200, .obj [("mensaje", .str "Ruta eliminada exitosamente"), ("id_ruta", .str id_ruta)]⟩
  | .error message =>
      ⟨500, .obj [("error", .str "Error al eliminar la ruta"), ("detalle", .str message)]⟩

/-- The handler `RutaController.getRutasByZona`. -/
def getRutasByZona (id_zona : String) (getByZona : String → Except String (List JSObj)) :
    Response :=
  match getByZona id_zona with
  | .ok rutas => ⟨200, .arr (rutas.map JSVal.obj)⟩
  | .error message =>
      ⟨500, .obj [("error", .str "Error al obtener las rutas por zona"),
        ("detalle", .str message)]⟩

end RutaController

/-! ## Vocabulary of the statements -/

/-- A generated identifier: `prefijo` followed by a number between 100 and 999. -/
def esIdGenerado (prefijo : String) (v : JSVal) : Prop :=
  ∃ n : Int, 100 ≤ n ∧ n ≤ 999 ∧ v = .str (prefijo ++ toString n)

/-- The four fields a zone update may write. -/
def camposZona : List String :=
  ["nombre_zona", "estado", "municipios_incluidos", "codigos_postales_relacionados"]

/-- How an awaited repository call ends: it throws an error with a `message`, it
resolves to the not-found signal (`null` or `false`), or it resolves to a result. -/
inductive Desenlace where
  | lanza (message : String) : Desenlace
  | noEncontrado : Desenlace
  | exito : Desenlace

/-- The end of a call that has no not-found signal (create, list). -/
def desenlaceValor {α : Type} : Except String α → Desenlace
  | .error message => .lanza message
  | .ok _ => .exito

/-- The end of a call whose not-found signal is `null` (get by id, update). -/
def desenlaceNull {α : Type} : Except String (Option α) → Desenlace
  | .error message => .lanza message
  | .ok none => .noEncontrado
  | .ok (some _) => .exito

/-- The end of a call whose not-found signal is `false` (delete). -/
def desenlaceBool : Except String Bool → Desenlace
  | .error message => .lanza message
  | .ok false => .noEncontrado
  | .ok true => .exito

/-- The status mapping of the handlers, in the words of the spec: 404 exactly on the
not-found signal, with a body that has an `error` field only; 500 exactly on a thrown
error, with the error's message in the body; otherwise 201 for a create handler and 200
for any other. -/
def cumpleMapeo (esCreate : Bool) (d : Desenlace) (resp : Response) : Prop :=
  (resp.status = 404 ↔ d = .noEncontrado) ∧
  (resp.status = 500 ↔ ∃ message, d = .lanza message) ∧
  (d = .exito → resp.status = if esCreate then 201 else 200) ∧
  (∀ message, d = .lanza message →
    ∃ texto, resp.body = .obj [("error", .str texto), ("detalle", .str message)]) ∧
  (d = .noEncontrado → ∃ texto, resp.body = .obj [("error", .str texto)])

/-! ## Properties of objects -/

theorem findProp_setProp (o : JSObj) (k : String) (v : JSVal) (key : String) :
    findProp (setProp o k v) key = if k = key then some v else findProp o key := by
  induction o with
  | nil => simp [setProp, findProp]
  | cons p rest ih =>
    obtain ⟨k0, w⟩ := p
    by_cases h : k0 = k
    · subst h
      by_cases h2 : k0 = key <;> simp [setProp, findProp, h2]
    · by_cases h2 : k0 = key
      · subst h2
        simp [setProp, findProp, h, Ne.symm h]
      · simp [setProp, findProp, h, h2, ih]

theorem getProp_setProp (o : JSObj) (k : String) (v : JSVal) (key : String) :
    getProp (setProp o k v) key = if k = key then v else getProp o key := by
  unfold getProp
  rw [findProp_setProp]
  split <;> rfl

theorem hasProp_setProp (o : JSObj) (k : String) (v : JSVal) (key : String) :
    hasProp (setProp o k v) key = (decide (k = key) || hasProp o key) := by
  unfold hasProp
  rw [findProp_setProp]
  by_cases h : k = key <;> simp [h]

theorem findProp_foldl_setProp (src : JSObj) (ks : List String) (t : JSObj) (key : String) :
    findProp (ks.foldl (fun acc k => setProp acc k (getProp src k)) t) key
      = if key ∈ ks then some (getProp src key) else findProp t key := by
  induction ks generalizing t with
  | nil => simp
  | cons k rest ih =>
    rw [List.foldl_cons, ih, findProp_setProp]
    by_cases h1 : key ∈ rest
    · simp [h1]
    · by_cases h2 : k = key
      · subst h2; simp
      · simp [h1, h2, Ne.symm h2]

theorem hasProp_iff_mem_keys (o : JSObj) (key : String) :
    hasProp o key = true ↔ key ∈ o.map Prod.fst := by
  induction o with
  | nil => simp [hasProp, findProp]
  | cons p rest ih =>
    obtain ⟨k, v⟩ := p
    by_cases h : k = key
    · simp [hasProp, findProp, h]
    · have ih2 : (findProp rest key).isSome = true ↔ key ∈ rest.map Prod.fst := ih
      simp only [hasProp, findProp, h, if_false, List.map_cons, List.mem_cons, ih2]
      constructor
      · exact fun a => Or.inr a
      · rintro (a | a)
        · exact absurd a.symm h
        · exact a

theorem findProp_spread (t s : JSObj) (key : String) :
    findProp (spread t s) key
      = if hasProp s key = true then some (getProp s key) else findProp t key := by
  unfold spread
  rw [findProp_foldl_setProp]
  by_cases h : hasProp s key = true
  · simp [h, (hasProp_iff_mem_keys s key).mp h]
  · have h2 : key ∉ s.map Prod.fst := fun a => h ((hasProp_iff_mem_keys s key).mpr a)
    rw [if_neg h2, if_neg h]

theorem getProp_spread (t s : JSObj) (key : String) :
    getProp (spread t s) key = if hasProp s key = true then getProp s key else getProp t key := by
  unfold getProp
  rw [findProp_spread]
  split <;> rfl

theorem hasProp_spread (t s : JSObj) (key : String) :
    hasProp (spread t s) key = (hasProp s key || hasProp t key) := by
  unfold hasProp
  rw [findProp_spread]
  by_cases h : hasProp s key = true
  · have h2 : (findProp s key).isSome = true := h
    simp [h, h2]
  · have h2 : (findProp s key).isSome = false := by simpa [hasProp] using h
    simp [h, h2]

theorem getProp_of_hasProp_false (o : JSObj) (key : String) (h : hasProp o key = false) :
    getProp o key = .undefined := by
  unfold hasProp at h
  unfold getProp
  cases hf : findProp o key with
  | none => rfl
  | some v => simp [hf] at h

/-! ## Properties of the generated identifier -/

/-! ### The binary64 product -/

theorem roundInt_intCast (k : Int) : roundInt (k : ℚ) = k := by
  simp [roundInt]

theorem le_roundInt (q : ℚ) (k : Int) (h : (k : ℚ) ≤ q) : k ≤ roundInt q := by
  have hn : k ≤ ⌊q⌋ := Int.le_floor.mpr h
  unfold roundInt
  simp only []
  split_ifs <;> omega

theorem roundInt_le_of_lt (q : ℚ) (k : Int) (h : q < (k : ℚ)) : roundInt q ≤ k := by
  have hn : ⌊q⌋ < k := Int.floor_lt.mpr h
  unfold roundInt
  simp only []
  split_ifs <;> omega

theorem roundInt_le_pred (q : ℚ) (k : Int) (h : q < (k : ℚ) - 1 / 2) : roundInt q ≤ k - 1 := by
  have hn : ⌊q⌋ < k := Int.floor_lt.mpr (by linarith)
  unfold roundInt
  simp only []
  by_cases hf : q - ⌊q⌋ < 1 / 2
  · rw [if_pos hf]; omega
  · have h2 : ⌊q⌋ + 1 < k := by
      by_contra hc
      have he : ⌊q⌋ = k - 1 := by omega
      apply hf
      rw [he]
      push_cast
      linarith
    split_ifs <;> omega

theorem roundInt_of_frac_lt (q : ℚ) (n : Int) (h1 : (n : ℚ) ≤ q) (h2 : q < n + 1 / 2) :
    roundInt q = n := by
  have hn : ⌊q⌋ = n := Int.floor_eq_iff.mpr ⟨h1, by linarith⟩
  unfold roundInt
  simp only [hn]
  rw [if_pos (by linarith)]

theorem roundInt_of_frac_gt (q : ℚ) (n : Int) (h1 : (n : ℚ) + 1 / 2 < q) (h2 : q < n + 1) :
    roundInt q = n + 1 := by
  have hn : ⌊q⌋ = n := Int.floor_eq_iff.mpr ⟨by linarith, h2⟩
  unfold roundInt
  simp only [hn]
  rw [if_neg (by linarith), if_pos (by linarith)]

theorem gridStep_pos (a : ℚ) : 0 < gridStep a := by
  unfold gridStep
  exact zpow_pos (by norm_num) _

theorem roundDouble_zero : roundDouble 0 = 0 := by
  simp [roundDouble, roundInt]

theorem roundDouble_of_nonneg (x : ℚ) (h : 0 ≤ x) :
    roundDouble x = roundInt (x / gridStep x) * gridStep x := by
  unfold roundDouble
  rw [abs_of_nonneg h, if_neg (not_lt.mpr h), one_mul]

theorem roundDouble_nonneg (x : ℚ) (h : 0 ≤ x) : 0 ≤ roundDouble x := by
  rw [roundDouble_of_nonneg x h]
  have hs := gridStep_pos x
  have hq : ((0 : Int) : ℚ) ≤ x / gridStep x := by
    push_cast
    exact div_nonneg h hs.le
  have hr : (0 : Int) ≤ roundInt (x / gridStep x) := le_roundInt _ 0 hq
  have : (0 : ℚ) ≤ (roundInt (x / gridStep x) : ℚ) := by exact_mod_cast hr
  exact mul_nonneg this hs.le

/-- The exponent of the binade of a positive number that lies in `[2 ^ k, 2 ^ (k + 1))`. -/
theorem gridStep_of_binade (x : ℚ) (k : Int) (hk : -1022 ≤ k) (h1 : (2 : ℚ) ^ k ≤ x)
    (h2 : x < 2 ^ (k + 1)) : gridStep x = 2 ^ (k - 52) := by
  have hx : 0 < x := lt_of_lt_of_le (zpow_pos (by norm_num) _) h1
  have a1 : k ≤ Int.log 2 x := (Int.zpow_le_iff_le_log (by norm_num) hx).mp (by exact_mod_cast h1)
  have a2 : Int.log 2 x < k + 1 :=
    (Int.lt_zpow_iff_log_lt (by norm_num) hx).mp (by exact_mod_cast h2)
  have : max (Int.log 2 x) (-1022) = k := by omega
  unfold gridStep
  rw [this]


theorem roundDouble_le_zpow (x : ℚ) (k : Int) (hx : 0 < x) (hk : -1021 ≤ k)
    (h : x < 2 ^ k) : roundDouble x ≤ 2 ^ k := by
  have hlog : Int.log 2 x < k :=
    (Int.lt_zpow_iff_log_lt (by norm_num) hx).mp (by exact_mod_cast h)
  obtain ⟨e, he⟩ : ∃ e, e = max (Int.log 2 x) (-1022) := ⟨_, rfl⟩
  have he1 : e ≤ k - 1 := by omega
  have he2 : Int.log 2 x + 1 ≤ e + 1 := by omega
  have hs : gridStep x = 2 ^ (e - 52) := by unfold gridStep; rw [he]
  have hspos := gridStep_pos x
  have hxlt : x < 2 ^ (e + 1) := by
    have a := Int.lt_zpow_succ_log_self (b := 2) (by norm_num) x
    have b : (2 : ℚ) ^ (Int.log 2 x + 1) ≤ 2 ^ (e + 1) :=
      zpow_le_zpow_right₀ (by norm_num) he2
    have a2 : x < (2 : ℚ) ^ (Int.log 2 x + 1) := by exact_mod_cast a
    exact lt_of_lt_of_le a2 b
  have h53 : (2 : ℚ) ^ (e + 1) = 9007199254740992 * gridStep x := by
    rw [hs, show e + 1 = 53 + (e - 52) by ring, zpow_add₀ (by norm_num)]
    norm_num
  have hq : x / gridStep x < ((9007199254740992 : Int) : ℚ) := by
    rw [div_lt_iff₀ hspos]
    push_cast
    rw [← h53]
    exact hxlt
  have hr := roundInt_le_of_lt _ _ hq
  have hr2 : (roundInt (x / gridStep x) : ℚ) ≤ 9007199254740992 := by exact_mod_cast hr
  rw [roundDouble_of_nonneg x hx.le]
  calc (roundInt (x / gridStep x) : ℚ) * gridStep x
      ≤ 9007199254740992 * gridStep x := mul_le_mul_of_nonneg_right hr2 hspos.le
    _ = 2 ^ (e + 1) := h53.symm
    _ ≤ 2 ^ k := zpow_le_zpow_right₀ (by norm_num) (by omega)

/-- A binary64 number in `[1/2, 1)` is a multiple of `2 ^ (-53)`, so it is at most
`1 - 2 ^ (-53)`. -/
theorem esDouble_lt_one (r : ℚ) (hd : esDouble r) (h1 : 1 / 2 ≤ r) (h2 : r < 1) :
    ∃ N : Int, r = N / 9007199254740992 ∧ N ≤ 9007199254740991 := by
  have hs : gridStep r = 2 ^ ((-1 : Int) - 52) :=
    gridStep_of_binade r (-1) (by norm_num) (by norm_num; linarith) (by norm_num; exact h2)
  have hs2 : gridStep r = 1 / 9007199254740992 := by rw [hs]; norm_num
  unfold esDouble at hd
  rw [roundDouble_of_nonneg r (by linarith), hs2] at hd
  refine ⟨roundInt (r / (1 / 9007199254740992)), ?_, ?_⟩
  · rw [div_eq_mul_one_div]
    exact hd.symm
  · have : (roundInt (r / (1 / 9007199254740992)) : ℚ) < 9007199254740992 := by
      have h3 : (roundInt (r / (1 / 9007199254740992)) : ℚ) * (1 / 9007199254740992) < 1 := by
        rw [hd]; exact h2
      linarith
    have h4 : roundInt (r / (1 / 9007199254740992)) < 9007199254740992 := by exact_mod_cast this
    omega

/-- The binary64 product of a draw below 1 and 900 is below 900. -/
theorem roundDouble_mul_900_lt (r : ℚ) (h0 : 0 ≤ r) (h1 : r < 1) (hd : esDouble r) :
    roundDouble (r * 900) < 900 := by
  by_cases hx : r * 900 < 512
  · by_cases hz : r = 0
    · rw [hz, zero_mul, roundDouble_zero]; norm_num
    · have hpos : 0 < r * 900 := by
        have : 0 < r := lt_of_le_of_ne h0 (Ne.symm hz)
        linarith
      have := roundDouble_le_zpow (r * 900) 9 hpos (by norm_num) (by norm_num; exact hx)
      have e : (2 : ℚ) ^ (9 : Int) = 512 := by norm_num
      rw [e] at this
      linarith
  · have hx2 : 512 ≤ r * 900 := not_lt.mp hx
    have hr : 1 / 2 ≤ r := by linarith
    obtain ⟨N, hN, hNle⟩ := esDouble_lt_one r hd hr h1
    have hNq : (N : ℚ) ≤ 9007199254740991 := by exact_mod_cast hNle
    have hs : gridStep (r * 900) = 2 ^ ((9 : Int) - 52) :=
      gridStep_of_binade (r * 900) 9 (by norm_num) (by norm_num; exact hx2)
        (by norm_num; linarith)
    have hs2 : gridStep (r * 900) = 1 / 8796093022208 := by rw [hs]; norm_num
    rw [roundDouble_of_nonneg (r * 900) (by linarith), hs2]
    have hq : r * 900 / (1 / 8796093022208) < ((7916483719987200 : Int) : ℚ) - 1 / 2 := by
      rw [hN]
      push_cast
      linarith
    have hm := roundInt_le_pred _ _ hq
    have hm2 : (roundInt (r * 900 / (1 / 8796093022208)) : ℚ) ≤ 7916483719987199 := by
      exact_mod_cast hm
    linarith

/-- The floor of the binary64 rounding of `x` is the floor of `x` or one more. -/
theorem floor_roundDouble (x : ℚ) (h0 : 0 ≤ x) (h1 : x < 2 ^ (53 : Int)) :
    ⌊x⌋ ≤ ⌊roundDouble x⌋ ∧ ⌊roundDouble x⌋ ≤ ⌊x⌋ + 1 := by
  by_cases hz : x = 0
  · rw [hz, roundDouble_zero]; simp
  have hx : 0 < x := lt_of_le_of_ne h0 (Ne.symm hz)
  have hlog : Int.log 2 x < 53 :=
    (Int.lt_zpow_iff_log_lt (by norm_num) hx).mp (by exact_mod_cast h1)
  obtain ⟨e, he⟩ : ∃ e, e = max (Int.log 2 x) (-1022) := ⟨_, rfl⟩
  have he1 : e ≤ 52 := by omega
  obtain ⟨d, hd⟩ : ∃ d : Nat, (d : Int) = 52 - e := ⟨(52 - e).toNat, by omega⟩
  have hs : gridStep x = ((2 : ℚ) ^ d)⁻¹ := by
    unfold gridStep
    rw [← he, show e - 52 = -(d : Int) by omega, zpow_neg, zpow_natCast]
  have hp : (0 : ℚ) < 2 ^ d := by positivity
  have hq : x / gridStep x = x * 2 ^ d := by rw [hs, div_inv_eq_mul]
  have hfl := Int.floor_le x
  have hfl2 := Int.lt_floor_add_one x
  have lo : ((⌊x⌋ * 2 ^ d : Int) : ℚ) ≤ x / gridStep x := by
    rw [hq]; push_cast
    exact mul_le_mul_of_nonneg_right hfl hp.le
  have hi : x / gridStep x < (((⌊x⌋ + 1) * 2 ^ d : Int) : ℚ) := by
    rw [hq]; push_cast
    exact mul_lt_mul_of_pos_right hfl2 hp
  have lo2 := le_roundInt _ _ lo
  have hi2 := roundInt_le_of_lt _ _ hi
  have lo3 : ((⌊x⌋ : Int) : ℚ) ≤ roundDouble x := by
    rw [roundDouble_of_nonneg x h0]
    have : ((⌊x⌋ * 2 ^ d : Int) : ℚ) ≤ (roundInt (x / gridStep x) : ℚ) := by exact_mod_cast lo2
    have h3 := mul_le_mul_of_nonneg_right this (gridStep_pos x).le
    rw [hs] at h3 ⊢
    push_cast at h3
    rw [mul_assoc, mul_inv_cancel₀ hp.ne', mul_one] at h3
    exact h3
  have hi3 : roundDouble x ≤ ((⌊x⌋ + 1 : Int) : ℚ) := by
    rw [roundDouble_of_nonneg x h0]
    have : (roundInt (x / gridStep x) : ℚ) ≤ (((⌊x⌋ + 1) * 2 ^ d : Int) : ℚ) := by
      exact_mod_cast hi2
    have h3 := mul_le_mul_of_nonneg_right this (gridStep_pos x).le
    rw [hs] at h3 ⊢
    push_cast at h3 ⊢
    rw [mul_assoc, mul_inv_cancel₀ hp.ne', mul_one] at h3
    exact h3
  constructor
  · exact Int.le_floor.mpr lo3
  · have : ⌊roundDouble x⌋ < ⌊x⌋ + 1 + 1 := by
      rw [Int.floor_lt]
      push_cast at hi3 ⊢
      linarith
    omega

theorem randomNum_bounds (r : ℚ) (h0 : 0 ≤ r) (h1 : r < 1) (hd : esDouble r) :
    100 ≤ randomNum r ∧ randomNum r ≤ 999 := by
  unfold randomNum
  have a : (0 : Int) ≤ ⌊roundDouble (r * 900)⌋ :=
    Int.floor_nonneg.mpr (roundDouble_nonneg _ (by positivity))
  have b : ⌊roundDouble (r * 900)⌋ < 900 := by
    rw [Int.floor_lt]
    push_cast
    exact roundDouble_mul_900_lt r h0 h1 hd
  omega

/-- The number the code computes is the exact `floor(r*900)+100` or one more. -/
theorem randomNum_near_exact (r : ℚ) (h0 : 0 ≤ r) (h1 : r < 1) :
    ⌊r * 900⌋ + 100 ≤ randomNum r ∧ randomNum r ≤ ⌊r * 900⌋ + 101 := by
  unfold randomNum
  have h := floor_roundDouble (r * 900) (by positivity) (by norm_num; linarith)
  omega

theorem roundDouble_of_intCast_quotient (x : ℚ) (k n : Int) (hk : -1022 ≤ k)
    (h1 : (2 : ℚ) ^ k ≤ x) (h2 : x < 2 ^ (k + 1)) (hn : x / 2 ^ (k - 52) = (n : ℚ)) :
    roundDouble x = n * 2 ^ (k - 52) := by
  have hx : 0 < x := lt_of_lt_of_le (zpow_pos (by norm_num) _) h1
  rw [roundDouble_of_nonneg x hx.le, gridStep_of_binade x k hk h1 h2, hn, roundInt_intCast]

theorem randomNum_zero : randomNum 0 = 100 := by
  simp [randomNum, roundDouble_zero]

theorem randomNum_half : randomNum (1 / 2) = 550 := by
  have h : roundDouble (1 / 2 * 900) = 450 := by
    rw [roundDouble_of_intCast_quotient (1 / 2 * 900) 8 7916483719987200 (by norm_num)
      (by norm_num) (by norm_num) (by norm_num)]
    norm_num
  unfold randomNum
  rw [h]
  norm_num

theorem esDouble_half : esDouble (1 / 2) := by
  unfold esDouble
  rw [roundDouble_of_intCast_quotient (1 / 2) (-1) 4503599627370496 (by norm_num)
    (by norm_num) (by norm_num) (by norm_num)]
  norm_num

theorem esDouble_zero : esDouble 0 := roundDouble_zero

theorem esDouble_tercio : esDouble (6004799503160661 / 18014398509481984) := by
  unfold esDouble
  rw [roundDouble_of_intCast_quotient (6004799503160661 / 18014398509481984) (-2)
    6004799503160661 (by norm_num) (by norm_num) (by norm_num) (by norm_num)]
  norm_num

/-- At the binary64 number nearest to one third the product rounds up to 300, so the code
computes 400 where the exact floor gives 399. -/
theorem randomNum_tercio :
    randomNum (6004799503160661 / 18014398509481984) = 400 ∧
    ⌊(6004799503160661 / 18014398509481984 : ℚ) * 900⌋ + 100 = 399 := by
  have hs : gridStep (6004799503160661 / 18014398509481984 * 900) = 2 ^ ((8 : Int) - 52) :=
    gridStep_of_binade _ 8 (by norm_num) (by norm_num) (by norm_num)
  have hq : roundInt (6004799503160661 / 18014398509481984 * 900 / 2 ^ ((8 : Int) - 52))
      = 5277655813324799 + 1 :=
    roundInt_of_frac_gt _ 5277655813324799 (by norm_num) (by norm_num)
  have h : roundDouble (6004799503160661 / 18014398509481984 * 900) = 300 := by
    rw [roundDouble_of_nonneg _ (by norm_num), hs, hq]
    norm_num
  constructor
  · unfold randomNum
    rw [h]
    norm_num
  · have : ⌊(6004799503160661 / 18014398509481984 : ℚ) * 900⌋ = 299 := by
      rw [Int.floor_eq_iff]
      constructor <;> norm_num
    rw [this]
    norm_num

/-! ### Decimal rendering -/

theorem toDigits_three (n : Nat) (h1 : 100 ≤ n) (h2 : n ≤ 999) :
    Nat.toDigits 10 n
      = [Nat.digitChar (n / 100), Nat.digitChar (n / 10 % 10), Nat.digitChar (n % 10)] := by
  obtain ⟨m, rfl⟩ : ∃ m, n = m + 3 := ⟨n - 3, by omega⟩
  have e1 : (m + 3) / 10 ≠ 0 := by omega
  have e2 : (m + 3) / 10 / 10 ≠ 0 := by omega
  have e3 : (m + 3) / 10 / 10 / 10 = 0 := by omega
  have e4 : (m + 3) / 10 / 10 % 10 = (m + 3) / 100 := by omega
  simp only [Nat.toDigits, Nat.toDigitsCore, e1, e2, e3, e4, if_true, if_false]

theorem digitChar_isDigit (d : Nat) (h : d < 10) : (Nat.digitChar d).isDigit = true := by
  interval_cases d <;> rfl

theorem digitChar_ne_zero (d : Nat) (h0 : 0 < d) (h : d < 10) : Nat.digitChar d ≠ '0' := by
  interval_cases d <;> decide

/-- The decimal rendering of a number between 100 and 999 is three digits, the first
one not zero. -/
theorem toString_three_digits (n : Int) (h1 : 100 ≤ n) (h2 : n ≤ 999) :
    ∃ d1 d2 d3 : Char, d1.isDigit = true ∧ d2.isDigit = true ∧ d3.isDigit = true ∧
      d1 ≠ '0' ∧ toString n = String.mk [d1, d2, d3] := by
  obtain ⟨m, rfl⟩ : ∃ m : Nat, n = (m : Int) := ⟨n.toNat, by omega⟩
  have m1 : 100 ≤ m := by omega
  have m2 : m ≤ 999 := by omega
  refine ⟨Nat.digitChar (m / 100), Nat.digitChar (m / 10 % 10), Nat.digitChar (m % 10),
    digitChar_isDigit _ (by omega), digitChar_isDigit _ (by omega),
    digitChar_isDigit _ (by omega), digitChar_ne_zero _ (by omega) (by omega), ?_⟩
  show (Nat.toDigits 10 m).asString = _
  rw [toDigits_three m m1 m2]
  rfl

/-- C1, as stated, fails: at the draw `0.3333333333333333`, the binary64 number nearest
to one third, the product `r * 900` rounds up to 300, so `ZonaModel.create` returns
`id_zona` `"me400"`, while `"me"` followed by the digits of the exact `floor(r*900)+100` is
`"me399"`. -/
theorem C1_counterexample :
    (0 : ℚ) ≤ 6004799503160661 / 18014398509481984 ∧
    (6004799503160661 / 18014398509481984 : ℚ) < 1 ∧
    esDouble (6004799503160661 / 18014398509481984) ∧
    getProp (ZonaModel.create [] (6004799503160661 / 18014398509481984) 0 "doc1"
      [("nombre_zona", .str "Centro"), ("estado", .str "CDMX")]).ret "id_zona"
      = .str "me400" ∧
    "me" ++ toString (⌊(6004799503160661 / 18014398509481984 : ℚ) * 900⌋ + 100) = "me399" ∧
    getProp (ZonaModel.create [] (6004799503160661 / 18014398509481984) 0 "doc1"
      [("nombre_zona", .str "Centro"), ("estado", .str "CDMX")]).ret "id_zona"
      ≠ .str ("me" ++ toString (⌊(6004799503160661 / 18014398509481984 : ℚ) * 900⌋ + 100)) := by
  obtain ⟨e1, e2⟩ := randomNum_tercio
  have hid : getProp (ZonaModel.create [] (6004799503160661 / 18014398509481984) 0 "doc1"
      [("nombre_zona", .str "Centro"), ("estado", .str "CDMX")]).ret "id_zona"
      = .str "me400" := by
    simp [ZonaModel.create, ZonaModel.nuevaZona, spread, getProp, findProp, setProp, e1]
    rfl
  have hex : "me" ++ toString (⌊(6004799503160661 / 18014398509481984 : ℚ) * 900⌋ + 100)
      = "me399" := by
    rw [e2]; rfl
  refine ⟨by norm_num, by norm_num, esDouble_tercio, hid, hex, ?_⟩
  rw [hid, hex]
  simp

/-- C1 (amended): for every zone-create input and every draw `r`, a binary64 number with
`0 ≤ r < 1`, the record that `ZonaModel.create` returns has `id_zona` equal to `"me"`
followed by the decimal digits of `n`, the floor of the binary64 product `r * 900` plus
100, which is the exact `floor(r*900)+100` or one more; `100 ≤ n ≤ 999`, so `id_zona` is
five characters: `"me"` and three digits, the first digit not zero. -/
theorem C1_create_id_zona_format (c : List Doc) (r : ℚ) (pos : Nat) (docId : String)
    (zonaData : JSObj) (h0 : 0 ≤ r) (h1 : r < 1) (hd : esDouble r) :
    randomNum r = ⌊roundDouble (r * 900)⌋ + 100 ∧
    ⌊r * 900⌋ + 100 ≤ randomNum r ∧ randomNum r ≤ ⌊r * 900⌋ + 101 ∧
    100 ≤ randomNum r ∧ randomNum r ≤ 999 ∧
    getProp (ZonaModel.create c r pos docId zonaData).ret "id_zona"
      = .str ("me" ++ toString (randomNum r)) ∧
    ∃ d1 d2 d3 : Char, d1.isDigit = true ∧ d2.isDigit = true ∧ d3.isDigit = true ∧
      d1 ≠ '0' ∧ "me" ++ toString (randomNum r) = String.mk ['m', 'e', d1, d2, d3] ∧
      ("me" ++ toString (randomNum r)).length = 5 := by
  obtain ⟨b1, b2⟩ := randomNum_bounds r h0 h1 hd
  obtain ⟨n1, n2⟩ := randomNum_near_exact r h0 h1
  refine ⟨rfl, n1, n2, b1, b2, ?_, ?_⟩
  · simp [ZonaModel.create, ZonaModel.nuevaZona, spread, getProp, findProp, setProp]
  · obtain ⟨d1, d2, d3, i1, i2, i3, nz, e⟩ := toString_three_digits _ b1 b2
    refine ⟨d1, d2, d3, i1, i2, i3, nz, ?_, ?_⟩
    · rw [e]; rfl
    · rw [e]; rfl

theorem C1_create_id_zona_format_witness :
    (0 : ℚ) ≤ 1/2 ∧ (1/2 : ℚ) < 1 ∧ esDouble (1/2) ∧
    getProp (ZonaModel.create [] (1/2) 0 "doc1" [("nombre_zona", .str "Centro")]).ret "id_zona"
      = .str "me550" := by
  have h := C1_create_id_zona_format [] (1/2) 0 "doc1" [("nombre_zona", .str "Centro")]
    (by norm_num) (by norm_num) esDouble_half
  have e : randomNum (1/2) = 550 := randomNum_half
  refine ⟨by norm_num, by norm_num, esDouble_half, ?_⟩
  rw [h.2.2.2.2.2.1, e]
  rfl

theorem not_esIdGenerado_mi_ruta : ¬ esIdGenerado "rut" (.str "mi-ruta") := by
  rintro ⟨n, -, -, h⟩
  have h2 : "mi-ruta" = "rut" ++ toString n := by injection h
  have h3 := congrArg String.data h2
  simp [String.data_append] at h3

/-- C2, as stated, fails: an input that carries its own `id_ruta` overrides the generated
one, so neither the persisted record nor the returned record has a generated `id_ruta`. -/
theorem C2_counterexample :
    (RutaModel.create [] 0 "2024-05-01T10:00:00.000Z" 0 "doc1" [("id_ruta", .str "mi-ruta")]).store
        = [⟨"doc1", [("id_ruta", .str "mi-ruta"), ("fecha_creacion", .str "2024-05-01")]⟩] ∧
    ¬ esIdGenerado "rut" (getProp
        [("id_ruta", .str "mi-ruta"), ("fecha_creacion", .str "2024-05-01")] "id_ruta") ∧
    ¬ esIdGenerado "rut" (getProp (RutaModel.create [] 0 "2024-05-01T10:00:00.000Z" 0 "doc1"
        [("id_ruta", .str "mi-ruta")]).ret "id_ruta") := by
  have e : getProp (RutaModel.create [] 0 "2024-05-01T10:00:00.000Z" 0 "doc1"
      [("id_ruta", .str "mi-ruta")]).ret "id_ruta" = .str "mi-ruta" := by
    simp [RutaModel.create, RutaModel.nuevaRuta, spread, getProp, findProp, setProp]
  refine ⟨?_, ?_, ?_⟩
  · simp [RutaModel.create, RutaModel.nuevaRuta, Store.add, spread, getProp, findProp, setProp]
    rfl
  · exact not_esIdGenerado_mi_ruta
  · rw [e]
    exact not_esIdGenerado_mi_ruta

/-- C2 (amended): for every route-create input that carries no `id_ruta` field and every
draw `r`, a binary64 number with `0 ≤ r < 1`, the record `RutaModel.create` persists and the record it returns both
have `id_ruta` equal to `"rut"` followed by a number between 100 and 999. -/
theorem C2_create_id_ruta_generated (c : List Doc) (r : ℚ) (instante : String) (pos : Nat)
    (docId : String) (rutaData : JSObj) (h0 : 0 ≤ r) (h1 : r < 1) (hd : esDouble r)
    (hid : hasProp rutaData "id_ruta" = false) :
    ∃ persisted : JSObj,
      (RutaModel.create c r instante pos docId rutaData).store
        = Store.add c pos docId persisted ∧
      getProp persisted "id_ruta" = .str ("rut" ++ toString (randomNum r)) ∧
      getProp (RutaModel.create c r instante pos docId rutaData).ret "id_ruta"
        = .str ("rut" ++ toString (randomNum r)) ∧
      esIdGenerado "rut" (getProp persisted "id_ruta") ∧
      esIdGenerado "rut" (getProp (RutaModel.create c r instante pos docId rutaData).ret "id_ruta") := by
  obtain ⟨b1, b2⟩ := randomNum_bounds r h0 h1 hd
  have e1 : getProp (RutaModel.nuevaRuta r instante rutaData) "id_ruta"
      = .str ("rut" ++ toString (randomNum r)) := by
    unfold RutaModel.nuevaRuta
    rw [getProp_setProp, getProp_spread, hid]
    simp [getProp, findProp]
  have e0 : hasProp (RutaModel.nuevaRuta r instante rutaData) "id_ruta" = true := by
    unfold RutaModel.nuevaRuta
    rw [hasProp_setProp, hasProp_spread]
    simp [hasProp, findProp]
  have e2 : getProp (RutaModel.create c r instante pos docId rutaData).ret "id_ruta"
      = .str ("rut" ++ toString (randomNum r)) := by
    unfold RutaModel.create
    simp only []
    rw [getProp_spread, e0, if_pos rfl, e1]
  refine ⟨RutaModel.nuevaRuta r instante rutaData, rfl, e1, e2, ?_, ?_⟩
  · rw [e1]; exact ⟨_, b1, b2, rfl⟩
  · rw [e2]; exact ⟨_, b1, b2, rfl⟩


theorem C2_create_id_ruta_generated_witness :
    (0 : ℚ) ≤ 1/2 ∧ (1/2 : ℚ) < 1 ∧ esDouble (1/2) ∧
    hasProp [("nombre_ruta", .str "Ruta Norte")] "id_ruta" = false ∧
    getProp (RutaModel.create [] (1/2) "2024-05-01T10:00:00.000Z" 0 "doc1"
      [("nombre_ruta", .str "Ruta Norte")]).ret "id_ruta" = .str "rut550" := by
  obtain ⟨_, _, _, h, _⟩ := C2_create_id_ruta_generated [] (1/2) "2024-05-01T10:00:00.000Z" 0
    "doc1" [("nombre_ruta", .str "Ruta Norte")] (by norm_num) (by norm_num) esDouble_half
    (by decide)
  have e : randomNum (1/2) = 550 := randomNum_half
  refine ⟨by norm_num, by norm_num, esDouble_half, by decide, ?_⟩
  rw [h, e]
  rfl

/-! ## Zone round trip -/

theorem filter_take_eq_nil {α : Type} (p : α → Bool) (l : List α) (n : Nat)
    (h : l.filter p = []) : (l.take n).filter p = [] := by
  rw [List.filter_eq_nil_iff] at h ⊢
  exact fun a ha => h a (List.mem_of_mem_take ha)

theorem whereEq_add_of_fresh (c : List Doc) (pos : Nat) (docId : String) (record : JSObj)
    (field value : String) (hnew : fieldEq field value ⟨docId, record⟩ = true)
    (hfresh : Store.whereEq c field value = []) :
    Store.whereEq (Store.add c pos docId record) field value = [⟨docId, record⟩] := by
  unfold Store.whereEq at hfresh ⊢
  unfold Store.add
  have hd : (c.drop pos).filter (fieldEq field value) = [] := by
    rw [List.filter_eq_nil_iff] at hfresh ⊢
    exact fun a ha => hfresh a (List.mem_of_mem_drop ha)
  rw [List.filter_append, filter_take_eq_nil _ _ _ hfresh, List.filter_cons, hnew, hd]
  rfl

/-- C3, as stated, fails: when the store already holds a zone with the generated
identifier, `getById` answers with the older document, not with the one just created. -/
theorem C3_counterexample :
    getProp (ZonaModel.create
        [⟨"docA", [("id_zona", .str "me100"), ("nombre_zona", .str "Vieja")]⟩]
        0 1 "docB" [("nombre_zona", .str "Nueva"), ("estado", .str "CDMX")]).ret "id_zona"
      = .str "me100" ∧
    ∃ found : JSObj,
      ZonaModel.getById (ZonaModel.create
        [⟨"docA", [("id_zona", .str "me100"), ("nombre_zona", .str "Vieja")]⟩]
        0 1 "docB" [("nombre_zona", .str "Nueva"), ("estado", .str "CDMX")]).store "me100"
        = some found ∧
      getProp found "nombre_zona" = .str "Vieja" ∧
      getProp found "nombre_zona"
        ≠ getProp [("nombre_zona", .str "Nueva"), ("estado", .str "CDMX")] "nombre_zona" := by
  have e : randomNum 0 = 100 := randomNum_zero
  refine ⟨?_, ?_⟩
  · simp [ZonaModel.create, ZonaModel.nuevaZona, spread, getProp, findProp, setProp, e]
    rfl
  · refine ⟨[("id", .str "docA"), ("id_zona", .str "me100"), ("nombre_zona", .str "Vieja")],
      ?_, ?_, ?_⟩
    · simp [ZonaModel.create, ZonaModel.getById, ZonaModel.nuevaZona, Store.add, Store.whereEq,
        fieldEq, spread, getProp, findProp, setProp, e]
    · simp [getProp, findProp]
    · simp [getProp, findProp]

theorem getProp_nuevaZona_lista (r : ℚ) (zonaData : JSObj) (docId campo : String)
    (hcampo : campo = "municipios_incluidos" ∨ campo = "codigos_postales_relacionados") :
    getProp (spread [("id", .str docId)] (ZonaModel.nuevaZona r zonaData)) campo
      = jsOr (getProp zonaData campo) (.arr []) := by
  rw [getProp_spread]
  rcases hcampo with h | h <;> subst h <;>
    simp [ZonaModel.nuevaZona, hasProp, getProp, findProp]

/-- C3 (amended): round trip when the generated identifier is new to the store. For every
state of the zones collection and every create input, if no stored zone carries the
identifier `k` that `ZonaModel.create` generates, then `ZonaModel.getById(k)` on the
resulting store returns a record whose `nombre_zona` and `estado` equal the input's, and
whose `municipios_incluidos` and `codigos_postales_relacionados` equal the input's lists,
or the empty list when the input omitted them: the key is absent, or, as on the call of
`ZonaController.createZona` for a body without the field, present with the value
`undefined`. -/
theorem C3_create_getById_roundtrip (c : List Doc) (r : ℚ) (pos : Nat) (docId : String)
    (zonaData : JSObj)
    (hfresh : Store.whereEq c "id_zona" ("me" ++ toString (randomNum r)) = []) :
    getProp (ZonaModel.create c r pos docId zonaData).ret "id_zona"
      = .str ("me" ++ toString (randomNum r)) ∧
    ∃ found : JSObj,
      ZonaModel.getById (ZonaModel.create c r pos docId zonaData).store
        ("me" ++ toString (randomNum r)) = some found ∧
      getProp found "nombre_zona" = getProp zonaData "nombre_zona" ∧
      getProp found "estado" = getProp zonaData "estado" ∧
      (∀ campo, campo = "municipios_incluidos" ∨ campo = "codigos_postales_relacionados" →
        (∀ xs, getProp zonaData campo = .arr xs → getProp found campo = .arr xs) ∧
        (hasProp zonaData campo = false → getProp found campo = .arr []) ∧
        (getProp zonaData campo = .undefined → getProp found campo = .arr []) ∧
        (truthy (getProp zonaData campo) = true →
          getProp found campo = getProp zonaData campo) ∧
        (truthy (getProp zonaData campo) = false → getProp found campo = .arr [])) := by
  have hnew : fieldEq "id_zona" ("me" ++ toString (randomNum r))
      ⟨docId, ZonaModel.nuevaZona r zonaData⟩ = true := by
    simp [fieldEq, ZonaModel.nuevaZona, getProp, findProp]
  have hq := whereEq_add_of_fresh c pos docId (ZonaModel.nuevaZona r zonaData) "id_zona"
    ("me" ++ toString (randomNum r)) hnew hfresh
  refine ⟨?_, spread [("id", .str docId)] (ZonaModel.nuevaZona r zonaData), ?_, ?_, ?_, ?_⟩
  · simp [ZonaModel.create, ZonaModel.nuevaZona, spread, getProp, findProp, setProp]
  · simp only [ZonaModel.getById, ZonaModel.create, hq]
  · rw [getProp_spread]
    simp [ZonaModel.nuevaZona, hasProp, getProp, findProp]
  · rw [getProp_spread]
    simp [ZonaModel.nuevaZona, hasProp, getProp, findProp]
  · intro campo hcampo
    rw [getProp_nuevaZona_lista r zonaData docId campo hcampo]
    refine ⟨?_, ?_, ?_, ?_, ?_⟩
    · intro xs hx
      simp [jsOr, hx, truthy]
    · intro hx
      simp [jsOr, getProp_of_hasProp_false _ _ hx, truthy]
    · intro hx
      simp [jsOr, hx, truthy]
    · intro hx
      simp [jsOr, hx]
    · intro hx
      simp [jsOr, hx]

theorem C3_create_getById_roundtrip_witness :
    Store.whereEq [⟨"docA", [("id_zona", .str "me100"), ("nombre_zona", .str "Vieja")]⟩]
      "id_zona" ("me" ++ toString (randomNum (1/2))) = [] ∧
    ∃ found : JSObj,
      ZonaModel.getById (ZonaModel.create
        [⟨"docA", [("id_zona", .str "me100"), ("nombre_zona", .str "Vieja")]⟩]
        (1/2) 1 "docB"
        [("nombre_zona", .str "Centro"), ("estado", .str "CDMX"),
         ("municipios_incluidos", .undefined),
         ("codigos_postales_relacionados", .arr [.str "06000"])]).store
        ("me" ++ toString (randomNum (1/2))) = some found ∧
      getProp found "nombre_zona" = .str "Centro" ∧
      getProp found "municipios_incluidos" = .arr [] ∧
      getProp found "codigos_postales_relacionados" = .arr [.str "06000"] := by
  have e : randomNum (1/2) = 550 := randomNum_half
  have hf : Store.whereEq [⟨"docA", [("id_zona", .str "me100"), ("nombre_zona", .str "Vieja")]⟩]
      "id_zona" ("me" ++ toString (randomNum (1/2))) = [] := by
    rw [e]; rfl
  obtain ⟨_, found, h1, h2, _, h3⟩ := C3_create_getById_roundtrip
    [⟨"docA", [("id_zona", .str "me100"), ("nombre_zona", .str "Vieja")]⟩]
    (1/2) 1 "docB"
    [("nombre_zona", .str "Centro"), ("estado", .str "CDMX"),
     ("municipios_incluidos", .undefined),
     ("codigos_postales_relacionados", .arr [.str "06000"])] hf
  exact ⟨hf, found, h1, by rw [h2]; rfl,
    (h3 "municipios_incluidos" (Or.inl rfl)).2.2.1 rfl,
    (h3 "codigos_postales_relacionados" (Or.inr rfl)).1 [.str "06000"] rfl⟩

/-! ## Zone update -/

theorem findProp_guarded (f : JSObj) (t : Bool) (k : String) (v : JSVal) (key : String) :
    findProp (if t = true then setProp f k v else f) key
      = if t = true ∧ k = key then some v else findProp f key := by
  cases t
  · simp
  · simp [findProp_setProp]

/-- The update set of a zone update: the input restricted to the fields of `camposZona`
whose input value is truthy. -/
theorem findProp_filteredUpdateData (updateData : JSObj) (key : String) :
    findProp (ZonaModel.filteredUpdateData updateData) key
      = if key ∈ camposZona ∧ truthy (getProp updateData key) = true
        then some (getProp updateData key) else none := by
  unfold ZonaModel.filteredUpdateData
  simp only [findProp_guarded]
  by_cases h4 : "codigos_postales_relacionados" = key
  · subst h4; simp [camposZona, findProp]
  · by_cases h3 : "municipios_incluidos" = key
    · subst h3; simp [camposZona, findProp]
    · by_cases h2 : "estado" = key
      · subst h2; simp [camposZona, findProp]
      · by_cases h1 : "nombre_zona" = key
        · subst h1; simp [camposZona, findProp]
        · simp [camposZona, h1, h2, h3, h4, Ne.symm h1, Ne.symm h2, Ne.symm h3, Ne.symm h4,
            findProp]

/-- C4: when `id_zona` matches a stored zone, the update set `ZonaModel.update` applies
to the store is exactly the input restricted to those of `nombre_zona`, `estado`,
`municipios_incluidos`, `codigos_postales_relacionados` whose input value is truthy (no
other field, `id_zona` included, is in it), and the value returned is that update set
plus `id_zona` equal to the identifier passed in; when no zone matches, the result is
null and the store is left as it was. -/
theorem C4_update_applies_filtered_set (c : List Doc) (id_zona : String) (updateData : JSObj) :
    (∀ d ds, Store.whereEq c "id_zona" id_zona = d :: ds →
      ∃ applied returned : JSObj,
        (ZonaModel.update c id_zona updateData).store = Store.update c d.id applied ∧
        (ZonaModel.update c id_zona updateData).ret = some returned ∧
        (∀ key, findProp applied key
          = if key ∈ camposZona ∧ truthy (getProp updateData key) = true
            then some (getProp updateData key) else none) ∧
        findProp applied "id_zona" = none ∧
        (∀ key, findProp returned key
          = if key = "id_zona" then some (.str id_zona) else findProp applied key)) ∧
    (Store.whereEq c "id_zona" id_zona = [] →
      (ZonaModel.update c id_zona updateData).ret = none ∧
      (ZonaModel.update c id_zona updateData).store = c) := by
  constructor
  · intro d ds hq
    refine ⟨ZonaModel.filteredUpdateData updateData,
      spread [("id_zona", .str id_zona)] (ZonaModel.filteredUpdateData updateData), ?_, ?_,
      findProp_filteredUpdateData updateData, ?_, ?_⟩
    · simp only [ZonaModel.update, hq]
    · simp only [ZonaModel.update, hq]
    · rw [findProp_filteredUpdateData]; simp [camposZona]
    · intro key
      rw [findProp_spread]
      by_cases hk : key = "id_zona"
      · subst hk
        have : hasProp (ZonaModel.filteredUpdateData updateData) "id_zona" = false := by
          simp [hasProp, findProp_filteredUpdateData, camposZona]
        simp [this, findProp]
      · by_cases hh : hasProp (ZonaModel.filteredUpdateData updateData) key = true
        · simp only [hh, if_true, hk, if_false]
          unfold hasProp at hh
          unfold getProp
          cases hf : findProp (ZonaModel.filteredUpdateData updateData) key with
          | none => simp [hf] at hh
          | some v => rfl
        · simp only [hh, hk, if_false]
          have hn : findProp (ZonaModel.filteredUpdateData updateData) key = none := by
            simpa [hasProp] using hh
          simp [findProp, Ne.symm hk, hn]
  · intro hq
    simp only [ZonaModel.update, hq, and_self]

theorem C4_update_applies_filtered_set_witness :
    Store.whereEq [⟨"docA", [("id_zona", .str "me100"), ("nombre_zona", .str "Vieja")]⟩]
      "id_zona" "me100"
      = [⟨"docA", [("id_zona", .str "me100"), ("nombre_zona", .str "Vieja")]⟩] ∧
    (ZonaModel.update [⟨"docA", [("id_zona", .str "me100"), ("nombre_zona", .str "Vieja")]⟩]
      "me100" [("id_zona", .str "me999"), ("nombre_zona", .str "Nueva"), ("estado", .str "")]).ret
      = some [("id_zona", .str "me100"), ("nombre_zona", .str "Nueva")] ∧
    (ZonaModel.update [⟨"docA", [("id_zona", .str "me100"), ("nombre_zona", .str "Vieja")]⟩]
      "me100" [("id_zona", .str "me999"), ("nombre_zona", .str "Nueva"), ("estado", .str "")]).store
      = [⟨"docA", [("id_zona", .str "me100"), ("nombre_zona", .str "Nueva")]⟩] ∧
    ∃ applied : JSObj,
      (ZonaModel.update [⟨"docA", [("id_zona", .str "me100"), ("nombre_zona", .str "Vieja")]⟩]
        "me100" [("id_zona", .str "me999"), ("nombre_zona", .str "Nueva"),
          ("estado", .str "")]).store
        = Store.update [⟨"docA", [("id_zona", .str "me100"), ("nombre_zona", .str "Vieja")]⟩]
          "docA" applied ∧
      findProp applied "id_zona" = none := by
  obtain ⟨applied, _, h1, _, _, h2, _⟩ := (C4_update_applies_filtered_set
    [⟨"docA", [("id_zona", .str "me100"), ("nombre_zona", .str "Vieja")]⟩] "me100"
    [("id_zona", .str "me999"), ("nombre_zona", .str "Nueva"), ("estado", .str "")]).1
    ⟨"docA", [("id_zona", .str "me100"), ("nombre_zona", .str "Vieja")]⟩ [] rfl
  exact ⟨rfl, rfl, rfl, applied, h1, h2⟩

/-! ## Store updates and the equality filter -/

theorem fieldEq_spread_of_not_hasProp (field value ref : String) (fields : JSObj) (d : Doc)
    (h : hasProp fields field = false) :
    fieldEq field value (if d.id = ref then ⟨d.id, spread d.data fields⟩ else d)
      = fieldEq field value d := by
  by_cases hr : d.id = ref
  · simp only [hr, if_true, fieldEq]
    rw [getProp_spread, h]
    simp
  · simp only [hr, if_false]

/-- An update that does not write `field` leaves the answer of the equality filter on
`field` in place, document by document. -/
theorem whereEq_update (c : List Doc) (ref : String) (fields : JSObj) (field value : String)
    (h : hasProp fields field = false) :
    Store.whereEq (Store.update c ref fields) field value
      = (Store.whereEq c field value).map
          (fun d => if d.id = ref then ⟨d.id, spread d.data fields⟩ else d) := by
  unfold Store.whereEq Store.update
  rw [List.filter_map]
  congr 1
  apply List.filter_congr
  intro d _
  exact fieldEq_spread_of_not_hasProp field value ref fields d h

theorem hasProp_filteredUpdateData (updateData : JSObj) (key : String) :
    hasProp (ZonaModel.filteredUpdateData updateData) key
      = decide (key ∈ camposZona ∧ truthy (getProp updateData key) = true) := by
  unfold hasProp
  rw [findProp_filteredUpdateData]
  by_cases h : key ∈ camposZona ∧ truthy (getProp updateData key) = true
  · simp [h]
  · rw [if_neg h]; simp [h]

/-- C5, as stated, fails: an empty array is truthy, so an update that gives
`municipios_incluidos` as the empty array keeps the field in the update set and the
stored list is overwritten. -/
theorem C5_counterexample :
    findProp (ZonaModel.filteredUpdateData [("municipios_incluidos", .arr [])])
      "municipios_incluidos" = some (.arr []) ∧
    (ZonaModel.update
      [⟨"docA", [("id_zona", .str "me100"), ("municipios_incluidos", .arr [.str "Toluca"])]⟩]
      "me100" [("municipios_incluidos", .arr [])]).store
      = [⟨"docA", [("id_zona", .str "me100"), ("municipios_incluidos", .arr [])]⟩] ∧
    getProp [("id_zona", .str "me100"), ("municipios_incluidos", .arr [])] "municipios_incluidos"
      ≠ getProp [("id_zona", .str "me100"), ("municipios_incluidos", .arr [.str "Toluca"])]
          "municipios_incluidos" := by
  refine ⟨rfl, rfl, ?_⟩
  simp [getProp, findProp]

/-- C5 (amended): a zone update with an explicit empty array for `municipios_incluidos`
or `codigos_postales_relacionados` overwrites that field. For every stored zone and every
update input whose list field is the empty array, the field is kept in the update set of
`ZonaModel.update` with the empty array as its value, and the stored list of the first
matching zone is the empty list after the update. -/
theorem C5_update_empty_array_overwrites (c : List Doc) (id_zona : String) (updateData : JSObj)
    (campo : String) (d : Doc) (ds : List Doc)
    (hcampo : campo = "municipios_incluidos" ∨ campo = "codigos_postales_relacionados")
    (hempty : getProp updateData campo = .arr [])
    (hq : Store.whereEq c "id_zona" id_zona = d :: ds) :
    findProp (ZonaModel.filteredUpdateData updateData) campo = some (.arr []) ∧
    ∃ d2 ds2,
      Store.whereEq (ZonaModel.update c id_zona updateData).store "id_zona" id_zona = d2 :: ds2 ∧
      d2.id = d.id ∧ getProp d2.data campo = .arr [] := by
  have hmem : campo ∈ camposZona := by
    rcases hcampo with h | h <;> simp [h, camposZona]
  have hf : findProp (ZonaModel.filteredUpdateData updateData) campo = some (.arr []) := by
    rw [findProp_filteredUpdateData, hempty]
    simp [hmem, truthy]
  have hid : hasProp (ZonaModel.filteredUpdateData updateData) "id_zona" = false := by
    rw [hasProp_filteredUpdateData]
    simp [camposZona]
  refine ⟨hf, ⟨d.id, spread d.data (ZonaModel.filteredUpdateData updateData)⟩,
    ds.map (fun e => if e.id = d.id
      then ⟨e.id, spread e.data (ZonaModel.filteredUpdateData updateData)⟩ else e), ?_, rfl, ?_⟩
  · simp only [ZonaModel.update, hq]
    rw [whereEq_update _ _ _ _ _ hid, hq]
    simp
  · show getProp (spread d.data (ZonaModel.filteredUpdateData updateData)) campo = _
    rw [getProp_spread]
    have hh : hasProp (ZonaModel.filteredUpdateData updateData) campo = true := by
      simp [hasProp, hf]
    simp [hh, getProp, hf]

theorem C5_update_empty_array_overwrites_witness :
    ∃ d2 ds2,
      Store.whereEq (ZonaModel.update
        [⟨"docA", [("id_zona", .str "me100"), ("municipios_incluidos", .arr [.str "Toluca"])]⟩]
        "me100" [("municipios_incluidos", .arr [])]).store "id_zona" "me100" = d2 :: ds2 ∧
      d2.id = "docA" ∧ getProp d2.data "municipios_incluidos" = .arr [] :=
  (C5_update_empty_array_overwrites
    [⟨"docA", [("id_zona", .str "me100"), ("municipios_incluidos", .arr [.str "Toluca"])]⟩]
    "me100" [("municipios_incluidos", .arr [])] "municipios_incluidos"
    ⟨"docA", [("id_zona", .str "me100"), ("municipios_incluidos", .arr [.str "Toluca"])]⟩ []
    (Or.inl rfl) rfl rfl).2

/-! ## Frame of an update -/

theorem getElem?_update (col : List Doc) (ref : String) (fields : JSObj) (i : Nat) :
    (Store.update col ref fields)[i]?
      = (col[i]?).map (fun d => if d.id = ref then ⟨d.id, spread d.data fields⟩ else d) := by
  unfold Store.update
  rw [List.getElem?_map]

theorem mem_of_whereEq_cons (c : List Doc) (field value : String) (d : Doc) (ds : List Doc)
    (hq : Store.whereEq c field value = d :: ds) : d ∈ c ∧ fieldEq field value d = true := by
  have hm : d ∈ Store.whereEq c field value := by rw [hq]; exact List.mem_cons_self _ _
  unfold Store.whereEq at hm
  exact List.mem_filter.mp hm

theorem eq_of_id_eq (c : List Doc) (h : Store.distinctIds c) (a b : Doc) (ha : a ∈ c)
    (hb : b ∈ c) (hid : a.id = b.id) : a = b :=
  List.inj_on_of_nodup_map h ha hb hid

/-- C6: frame of a zone update. After `ZonaModel.update` every document sits where it was,
with the store identifier and the `id_zona` it had; the first matching document keeps the
old value of each of `nombre_zona`, `estado`, `municipios_incluidos`,
`codigos_postales_relacionados` that the input omits or gives as the empty string; every
document with another store identifier is unchanged, which, as the store assigns distinct
identifiers, is every other document; and with no matching document the whole collection
is unchanged. -/
theorem C6_update_frame (col : List Doc) (id_zona : String) (updateData : JSObj) :
    (Store.whereEq col "id_zona" id_zona = [] →
      (ZonaModel.update col id_zona updateData).store = col) ∧
    (∀ d ds, Store.whereEq col "id_zona" id_zona = d :: ds →
      ((ZonaModel.update col id_zona updateData).store).length = col.length ∧
      ∀ (i : Nat) (e : Doc), col[i]? = some e →
        ∃ e2, ((ZonaModel.update col id_zona updateData).store)[i]? = some e2 ∧
          e2.id = e.id ∧
          getProp e2.data "id_zona" = getProp e.data "id_zona" ∧
          (e.id = d.id → ∀ campo ∈ camposZona,
            (hasProp updateData campo = false ∨ getProp updateData campo = .str "") →
            getProp e2.data campo = getProp e.data campo) ∧
          (e.id ≠ d.id → e2 = e) ∧
          (Store.distinctIds col → e ≠ d → e2 = e)) := by
  constructor
  · intro hq
    simp only [ZonaModel.update, hq]
  · intro d ds hq
    have hstore : (ZonaModel.update col id_zona updateData).store
        = Store.update col d.id (ZonaModel.filteredUpdateData updateData) := by
      simp only [ZonaModel.update, hq]
    rw [hstore]
    refine ⟨by simp [Store.update], ?_⟩
    intro i e hi
    have hmem : e ∈ col := List.getElem?_mem hi
    refine ⟨if e.id = d.id then ⟨e.id, spread e.data (ZonaModel.filteredUpdateData updateData)⟩
      else e, ?_, ?_, ?_, ?_, ?_, ?_⟩
    · rw [getElem?_update, hi]; rfl
    · by_cases h : e.id = d.id <;> simp [h]
    · by_cases h : e.id = d.id
      · simp only [h, if_true]
        rw [getProp_spread, hasProp_filteredUpdateData]
        simp [camposZona]
      · simp only [h, if_false]
    · intro hed campo hc hfalsy
      simp only [hed, if_true]
      rw [getProp_spread, hasProp_filteredUpdateData]
      have hft : truthy (getProp updateData campo) = false := by
        rcases hfalsy with h | h
        · rw [getProp_of_hasProp_false _ _ h]; rfl
        · rw [h]; rfl
      simp [hft]
    · intro h
      simp only [h, if_false]
    · intro hids hne
      have h : e.id ≠ d.id := fun hid =>
        hne (eq_of_id_eq col hids e d hmem (mem_of_whereEq_cons col _ _ d ds hq).1 hid)
      simp only [h, if_false]

theorem C6_update_frame_witness :
    Store.whereEq
      [⟨"docA", [("id_zona", .str "me100"), ("nombre_zona", .str "Norte"), ("estado", .str "CDMX")]⟩,
       ⟨"docB", [("id_zona", .str "me200"), ("nombre_zona", .str "Sur")]⟩] "id_zona" "me100"
      = [⟨"docA", [("id_zona", .str "me100"), ("nombre_zona", .str "Norte"),
          ("estado", .str "CDMX")]⟩] ∧
    ((ZonaModel.update
      [⟨"docA", [("id_zona", .str "me100"), ("nombre_zona", .str "Norte"), ("estado", .str "CDMX")]⟩,
       ⟨"docB", [("id_zona", .str "me200"), ("nombre_zona", .str "Sur")]⟩]
      "me100" [("nombre_zona", .str ""), ("estado", .str "Puebla")]).store).length = 2 ∧
    (ZonaModel.update
      [⟨"docA", [("id_zona", .str "me100"), ("nombre_zona", .str "Norte"), ("estado", .str "CDMX")]⟩,
       ⟨"docB", [("id_zona", .str "me200"), ("nombre_zona", .str "Sur")]⟩]
      "me100" [("nombre_zona", .str ""), ("estado", .str "Puebla")]).store
      = [⟨"docA", [("id_zona", .str "me100"), ("nombre_zona", .str "Norte"),
          ("estado", .str "Puebla")]⟩,
         ⟨"docB", [("id_zona", .str "me200"), ("nombre_zona", .str "Sur")]⟩] :=
  ⟨rfl, ((C6_update_frame
    [⟨"docA", [("id_zona", .str "me100"), ("nombre_zona", .str "Norte"), ("estado", .str "CDMX")]⟩,
     ⟨"docB", [("id_zona", .str "me200"), ("nombre_zona", .str "Sur")]⟩]
    "me100" [("nombre_zona", .str ""), ("estado", .str "Puebla")]).2
    ⟨"docA", [("id_zona", .str "me100"), ("nombre_zona", .str "Norte"), ("estado", .str "CDMX")]⟩
    [] rfl).1, rfl⟩

/-! ## The date stamp -/

theorem takeWhile_before_T (l rest : List Char) (h : 'T' ∉ l) :
    (l ++ 'T' :: rest).takeWhile (fun ch => decide (ch ≠ 'T')) = l := by
  induction l with
  | nil => simp [List.takeWhile]
  | cons a t ih =>
    have ha : a ≠ 'T' := fun e => h (e ▸ List.mem_cons_self _ _)
    have ht : 'T' ∉ t := fun m => h (List.mem_cons_of_mem _ m)
    have hd : decide (a ≠ 'T') = true := by simp [ha]
    rw [List.cons_append, List.takeWhile_cons, hd, ih ht]
    rfl

/-- The date stamp of an ISO timestamp `fecha ++ "T" ++ hora` is `fecha`, the part before
the first `T`. -/
theorem fechaActual_of_timestamp (fecha hora : String) (h : 'T' ∉ fecha.data) :
    fechaActual (fecha ++ "T" ++ hora) = fecha := by
  unfold fechaActual
  have e : (fecha ++ "T" ++ hora).data = fecha.data ++ 'T' :: hora.data := by
    simp [String.data_append]
  rw [e, takeWhile_before_T _ _ h]

/-! ## Route update -/

theorem findProp_datosConFecha (instante : String) (datosActualizar : JSObj) (key : String) :
    findProp (RutaModel.datosConFecha instante datosActualizar) key
      = if key = "fecha_actualizacion" then some (.str (fechaActual instante))
        else findProp datosActualizar key := by
  unfold RutaModel.datosConFecha
  rw [findProp_setProp, findProp_spread]
  by_cases hk : key = "fecha_actualizacion"
  · simp [hk]
  · rw [if_neg (Ne.symm hk), if_neg hk]
    by_cases hh : hasProp datosActualizar key = true
    · rw [if_pos hh]
      unfold hasProp at hh
      unfold getProp
      cases hf : findProp datosActualizar key with
      | none => simp [hf] at hh
      | some v => rfl
    · rw [if_neg hh]
      have hn : findProp datosActualizar key = none := by simpa [hasProp] using hh
      rw [hn]; rfl

/-- C7: when `id_ruta` matches a stored route, `RutaModel.update` applies to the first
matching document an update set that contains every field of the input with its input
value, except that `fecha_actualizacion` is the current date whatever the input supplies
for it: the characters of the current instant's timestamp before its first `T`, so
`fecha` when the ISO timestamp is `fecha ++ "T" ++ hora`; when no route matches, the
result is null and the store is left as it was. -/
theorem C7_update_merges_all_and_stamps (col : List Doc) (instante id_ruta : String)
    (datosActualizar : JSObj) :
    (∀ d ds, Store.whereEq col "id_ruta" id_ruta = d :: ds →
      ∃ applied : JSObj,
        (RutaModel.update col instante id_ruta datosActualizar).store
          = Store.update col d.id applied ∧
        (∀ key v, key ≠ "fecha_actualizacion" → findProp datosActualizar key = some v →
          findProp applied key = some v) ∧
        findProp applied "fecha_actualizacion" = some (.str (fechaActual instante)) ∧
        (∀ fecha hora : String, 'T' ∉ fecha.data → instante = fecha ++ "T" ++ hora →
          findProp applied "fecha_actualizacion" = some (.str fecha)) ∧
        (∀ (i : Nat), col[i]? = some d →
          ((RutaModel.update col instante id_ruta datosActualizar).store)[i]?
            = some ⟨d.id, spread d.data applied⟩)) ∧
    (Store.whereEq col "id_ruta" id_ruta = [] →
      (RutaModel.update col instante id_ruta datosActualizar).ret = none ∧
      (RutaModel.update col instante id_ruta datosActualizar).store = col) := by
  constructor
  · intro d ds hq
    refine ⟨RutaModel.datosConFecha instante datosActualizar, ?_, ?_, ?_, ?_, ?_⟩
    · simp only [RutaModel.update, hq]
    · intro key v hk hv
      rw [findProp_datosConFecha, if_neg hk, hv]
    · rw [findProp_datosConFecha, if_pos rfl]
    · intro fecha hora hT hi
      rw [findProp_datosConFecha, if_pos rfl, hi, fechaActual_of_timestamp fecha hora hT]
    · intro i hi
      simp only [RutaModel.update, hq]
      rw [getElem?_update, hi]
      simp
  · intro hq
    simp only [RutaModel.update, hq, and_self]

theorem C7_update_merges_all_and_stamps_witness :
    Store.whereEq [⟨"docA", [("id_ruta", .str "rut100"), ("nombre_ruta", .str "Norte")]⟩]
      "id_ruta" "rut100"
      = [⟨"docA", [("id_ruta", .str "rut100"), ("nombre_ruta", .str "Norte")]⟩] ∧
    (RutaModel.update [⟨"docA", [("id_ruta", .str "rut100"), ("nombre_ruta", .str "Norte")]⟩]
      "2024-05-01T10:00:00.000Z" "rut100"
      [("fecha_actualizacion", .str "1999-01-01"), ("color", .str "rojo")]).store
      = [⟨"docA", [("id_ruta", .str "rut100"), ("nombre_ruta", .str "Norte"),
          ("fecha_actualizacion", .str "2024-05-01"), ("color", .str "rojo")]⟩] ∧
    ∃ applied : JSObj,
      (RutaModel.update [⟨"docA", [("id_ruta", .str "rut100"), ("nombre_ruta", .str "Norte")]⟩]
        "2024-05-01T10:00:00.000Z" "rut100"
        [("fecha_actualizacion", .str "1999-01-01"), ("color", .str "rojo")]).store
        = Store.update [⟨"docA", [("id_ruta", .str "rut100"), ("nombre_ruta", .str "Norte")]⟩]
            "docA" applied ∧
      findProp applied "color" = some (.str "rojo") ∧
      findProp applied "fecha_actualizacion" = some (.str "2024-05-01") := by
  obtain ⟨applied, h1, h2, _, h3, _⟩ := (C7_update_merges_all_and_stamps
    [⟨"docA", [("id_ruta", .str "rut100"), ("nombre_ruta", .str "Norte")]⟩]
    "2024-05-01T10:00:00.000Z" "rut100"
    [("fecha_actualizacion", .str "1999-01-01"), ("color", .str "rojo")]).1
    ⟨"docA", [("id_ruta", .str "rut100"), ("nombre_ruta", .str "Norte")]⟩ [] rfl
  exact ⟨rfl, rfl, applied, h1, h2 "color" (.str "rojo") (by decide) rfl,
    h3 "2024-05-01" "10:00:00.000Z" (by decide) (by decide)⟩

theorem hasProp_datosConFecha (instante : String) (datosActualizar : JSObj) (key : String) :
    hasProp (RutaModel.datosConFecha instante datosActualizar) key
      = (decide (key = "fecha_actualizacion") || hasProp datosActualizar key) := by
  unfold hasProp
  rw [findProp_datosConFecha]
  by_cases hk : key = "fecha_actualizacion" <;> simp [hk]

/-- C8 at a failing input: the routes `docA` (`id_ruta` `"rut100"`) and `docB` (`id_ruta`
`"rut200"`) are stored and `PUT /actualizar-ruta/rut100` arrives with the body
`{id_ruta: "rut200"}`. `RutaModel.update` writes the body's `id_ruta` onto `docA`, so the
natural key of a stored route is mutated (and both routes now carry `"rut200"`); the
record it returns carries `"rut200"`, not the identifier passed in; the handler answers
200 with `id_ruta` `"rut100"`, and no stored route carries `"rut100"` any more. -/
theorem C8_update_rewrites_id_ruta :
    (RutaModel.update
        [⟨"docA", [("id_ruta", .str "rut100")]⟩, ⟨"docB", [("id_ruta", .str "rut200")]⟩]
        "2024-05-01T10:00:00.000Z" "rut100" [("id_ruta", .str "rut200")]).store
      = [⟨"docA", [("id_ruta", .str "rut200"), ("fecha_actualizacion", .str "2024-05-01")]⟩,
         ⟨"docB", [("id_ruta", .str "rut200")]⟩] ∧
    ((RutaModel.update
        [⟨"docA", [("id_ruta", .str "rut100")]⟩, ⟨"docB", [("id_ruta", .str "rut200")]⟩]
        "2024-05-01T10:00:00.000Z" "rut100" [("id_ruta", .str "rut200")]).store).map
        (fun d => getProp d.data "id_ruta")
      ≠ ([⟨"docA", [("id_ruta", .str "rut100")]⟩, ⟨"docB", [("id_ruta", .str "rut200")]⟩] :
          List Doc).map (fun d => getProp d.data "id_ruta") ∧
    (∃ returned : JSObj,
      (RutaModel.update
        [⟨"docA", [("id_ruta", .str "rut100")]⟩, ⟨"docB", [("id_ruta", .str "rut200")]⟩]
        "2024-05-01T10:00:00.000Z" "rut100" [("id_ruta", .str "rut200")]).ret = some returned ∧
      getProp returned "id_ruta" = .str "rut200" ∧
      getProp returned "id_ruta" ≠ .str "rut100") ∧
    RutaController.updateRuta "rut100" [("id_ruta", .str "rut200")]
        (fun id_ruta datos => .ok (RutaModel.update
          [⟨"docA", [("id_ruta", .str "rut100")]⟩, ⟨"docB", [("id_ruta", .str "rut200")]⟩]
          "2024-05-01T10:00:00.000Z" id_ruta datos).ret)
      = ⟨200, .obj [("mensaje", .str "Ruta actualizada exitosamente"),
          ("id_ruta", .str "rut100")]⟩ ∧
    RutaModel.getById
        [⟨"docA", [("id_ruta", .str "rut200"), ("fecha_actualizacion", .str "2024-05-01")]⟩,
         ⟨"docB", [("id_ruta", .str "rut200")]⟩] "rut100" = none := by
  have e1 : ((RutaModel.update
      [⟨"docA", [("id_ruta", .str "rut100")]⟩, ⟨"docB", [("id_ruta", .str "rut200")]⟩]
      "2024-05-01T10:00:00.000Z" "rut100" [("id_ruta", .str "rut200")]).store).map
      (fun d => getProp d.data "id_ruta") = [.str "rut200", .str "rut200"] := rfl
  have e2 : ([⟨"docA", [("id_ruta", .str "rut100")]⟩, ⟨"docB", [("id_ruta", .str "rut200")]⟩] :
      List Doc).map (fun d => getProp d.data "id_ruta") = [.str "rut100", .str "rut200"] := rfl
  have e3 : getProp [("id_ruta", .str "rut200"), ("fecha_actualizacion", .str "2024-05-01")]
      "id_ruta" = .str "rut200" := rfl
  refine ⟨rfl, ?_, ⟨[("id_ruta", .str "rut200"), ("fecha_actualizacion", .str "2024-05-01")],
    rfl, e3, ?_⟩, rfl, rfl⟩
  · rw [e1, e2]
    simp
  · rw [e3]
    simp

/-- What `RutaModel.update` keeps when the input carries no `id_ruta` field: each document
has the same `id_ruta` and the same store identifier, at the same place, as before, and
the `id_ruta` of the returned record equals the identifier passed in. -/
theorem update_keeps_id_ruta_of_plain_input (col : List Doc) (instante id_ruta : String)
    (datosActualizar : JSObj) (hid : hasProp datosActualizar "id_ruta" = false) :
    ((RutaModel.update col instante id_ruta datosActualizar).store).map
        (fun d => getProp d.data "id_ruta")
      = col.map (fun d => getProp d.data "id_ruta") ∧
    ((RutaModel.update col instante id_ruta datosActualizar).store).map Doc.id
      = col.map Doc.id ∧
    ∀ returned, (RutaModel.update col instante id_ruta datosActualizar).ret = some returned →
      getProp returned "id_ruta" = .str id_ruta := by
  have hno : hasProp (RutaModel.datosConFecha instante datosActualizar) "id_ruta" = false := by
    rw [hasProp_datosConFecha, hid]
    simp
  cases hq : Store.whereEq col "id_ruta" id_ruta with
  | nil =>
    simp [RutaModel.update, hq]
  | cons d ds =>
    simp only [RutaModel.update, hq]
    refine ⟨?_, ?_, ?_⟩
    · unfold Store.update
      rw [List.map_map]
      apply List.map_congr_left
      intro e _
      by_cases h : e.id = d.id
      · simp only [Function.comp, h, if_true]
        rw [getProp_spread, hno]
        simp
      · simp only [Function.comp, h, if_false]
    · unfold Store.update
      rw [List.map_map]
      apply List.map_congr_left
      intro e _
      by_cases h : e.id = d.id <;> simp [Function.comp, h]
    · intro returned hr
      have : returned = spread [("id_ruta", .str id_ruta)]
          (RutaModel.datosConFecha instante datosActualizar) := by
        injection hr with hr
        exact hr.symm
      rw [this, getProp_spread, hno]
      simp [getProp, findProp]

/-! ## Deletion -/

theorem whereEq_eq_nil_of_absent (col : List Doc) (field value : String)
    (h : ∀ d ∈ col, getProp d.data field ≠ .str value) : Store.whereEq col field value = [] := by
  unfold Store.whereEq
  rw [List.filter_eq_nil_iff]
  intro d hd
  have hne := h d hd
  unfold fieldEq
  split
  · rename_i s hs
    have : s ≠ value := fun e => hne (by rw [hs, e])
    simp [this]
  · simp

/-- C9: deleting a key that no stored document carries. `ZonaModel.delete` and
`RutaModel.delete` return false and leave the store as it was, and so does every further
call, however many times the deletion is repeated. -/
theorem C9_delete_absent_is_idempotent (zonas rutas : List Doc) (id_zona id_ruta : String)
    (hz : ∀ d ∈ zonas, getProp d.data "id_zona" ≠ .str id_zona)
    (hr : ∀ d ∈ rutas, getProp d.data "id_ruta" ≠ .str id_ruta) :
    (ZonaModel.delete zonas id_zona).ret = false ∧
    (ZonaModel.delete zonas id_zona).store = zonas ∧
    (RutaModel.delete rutas id_ruta).ret = false ∧
    (RutaModel.delete rutas id_ruta).store = rutas ∧
    ∀ n : Nat,
      (fun s => (ZonaModel.delete s id_zona).store)^[n] zonas = zonas ∧
      (ZonaModel.delete ((fun s => (ZonaModel.delete s id_zona).store)^[n] zonas) id_zona).ret
        = false ∧
      (fun s => (RutaModel.delete s id_ruta).store)^[n] rutas = rutas ∧
      (RutaModel.delete ((fun s => (RutaModel.delete s id_ruta).store)^[n] rutas) id_ruta).ret
        = false := by
  have qz := whereEq_eq_nil_of_absent zonas "id_zona" id_zona hz
  have qr := whereEq_eq_nil_of_absent rutas "id_ruta" id_ruta hr
  have z1 : (ZonaModel.delete zonas id_zona).ret = false := by simp only [ZonaModel.delete, qz]
  have z2 : (ZonaModel.delete zonas id_zona).store = zonas := by simp only [ZonaModel.delete, qz]
  have r1 : (RutaModel.delete rutas id_ruta).ret = false := by simp only [RutaModel.delete, qr]
  have r2 : (RutaModel.delete rutas id_ruta).store = rutas := by simp only [RutaModel.delete, qr]
  refine ⟨z1, z2, r1, r2, ?_⟩
  intro n
  have iz : (fun s => (ZonaModel.delete s id_zona).store)^[n] zonas = zonas :=
    Function.iterate_fixed z2 n
  have ir : (fun s => (RutaModel.delete s id_ruta).store)^[n] rutas = rutas :=
    Function.iterate_fixed r2 n
  rw [iz, ir]
  exact ⟨rfl, z1, rfl, r1⟩

theorem C9_delete_absent_is_idempotent_witness :
    (ZonaModel.delete [⟨"docA", [("id_zona", .str "me100")]⟩] "me200").ret = false ∧
    (RutaModel.delete [⟨"docR", [("id_ruta", .str "rut100")]⟩] "rut200").store
      = [⟨"docR", [("id_ruta", .str "rut100")]⟩] := by
  have h := C9_delete_absent_is_idempotent [⟨"docA", [("id_zona", .str "me100")]⟩]
    [⟨"docR", [("id_ruta", .str "rut100")]⟩] "me200" "rut200"
    (by intro d hd; simp at hd; subst hd; simp [getProp, findProp])
    (by intro d hd; simp at hd; subst hd; simp [getProp, findProp])
  exact ⟨h.1, h.2.2.2.1⟩

theorem fieldEq_iff (field value : String) (d : Doc) :
    fieldEq field value d = true ↔ getProp d.data field = .str value := by
  unfold fieldEq
  split
  · rename_i s hs
    rw [hs]
    simp
  · rename_i hne
    constructor
    · intro h; simp at h
    · intro h; exact absurd h (hne value)

theorem foldl_delete_eq_filter (ms col : List Doc) :
    ms.foldl (fun s doc => Store.delete s doc.id) col
      = col.filter (fun e => decide (e.id ∉ ms.map Doc.id)) := by
  induction ms generalizing col with
  | nil => simp
  | cons m rest ih =>
    rw [List.foldl_cons, ih]
    unfold Store.delete
    rw [List.filter_filter]
    apply List.filter_congr
    intro e _
    rw [Bool.and_comm]
    simp

/-- The collection after a zone deletion that found a match: the documents whose store
identifier is not the identifier of a matching document. -/
theorem delete_store_eq (col : List Doc) (id_zona : String) (d : Doc) (ds : List Doc)
    (hq : Store.whereEq col "id_zona" id_zona = d :: ds) :
    (ZonaModel.delete col id_zona).store
      = col.filter (fun e => decide (e.id ∉ (Store.whereEq col "id_zona" id_zona).map Doc.id)) := by
  simp only [ZonaModel.delete, hq]
  rw [foldl_delete_eq_filter]

theorem whereEq_delete_store (col : List Doc) (id_zona : String) (d : Doc) (ds : List Doc)
    (hq : Store.whereEq col "id_zona" id_zona = d :: ds) :
    Store.whereEq (ZonaModel.delete col id_zona).store "id_zona" id_zona = [] := by
  rw [delete_store_eq col id_zona d ds hq]
  unfold Store.whereEq
  rw [List.filter_eq_nil_iff]
  intro e he hm
  obtain ⟨hcol, hnot⟩ := List.mem_filter.mp he
  have hin : e ∈ col.filter (fieldEq "id_zona" id_zona) := List.mem_filter.mpr ⟨hcol, hm⟩
  have : e.id ∈ (col.filter (fieldEq "id_zona" id_zona)).map Doc.id := List.mem_map_of_mem _ hin
  simp only [decide_eq_true_eq] at hnot
  exact hnot this

/-- C10: when at least one stored zone carries `id_zona`, `ZonaModel.delete` returns true,
no document that is left carries `id_zona` and the documents that are left keep their
order; as the store assigns distinct identifiers, the documents that are left are exactly
those whose `id_zona` differs, so every match is removed, also when several share the key,
and no other document; a following `ZonaModel.getById` of that `id_zona` returns null and
a second delete returns false. -/
theorem C10_delete_removes_every_match (col : List Doc) (id_zona : String)
    (hex : ∃ d ∈ col, getProp d.data "id_zona" = .str id_zona) :
    (ZonaModel.delete col id_zona).ret = true ∧
    (∀ e ∈ (ZonaModel.delete col id_zona).store, getProp e.data "id_zona" ≠ .str id_zona) ∧
    List.Sublist (ZonaModel.delete col id_zona).store col ∧
    (Store.distinctIds col →
      (ZonaModel.delete col id_zona).store
        = col.filter (fun e => !fieldEq "id_zona" id_zona e)) ∧
    ZonaModel.getById (ZonaModel.delete col id_zona).store id_zona = none ∧
    (ZonaModel.delete (ZonaModel.delete col id_zona).store id_zona).ret = false := by
  obtain ⟨d0, hd0, hv0⟩ := hex
  have hne : Store.whereEq col "id_zona" id_zona ≠ [] := by
    intro h
    unfold Store.whereEq at h
    rw [List.filter_eq_nil_iff] at h
    exact h d0 hd0 ((fieldEq_iff _ _ _).mpr hv0)
  obtain ⟨d, ds, hq⟩ := List.exists_cons_of_ne_nil hne
  have hnil := whereEq_delete_store col id_zona d ds hq
  have hst := delete_store_eq col id_zona d ds hq
  refine ⟨?_, ?_, ?_, ?_, ?_, ?_⟩
  · simp only [ZonaModel.delete, hq]
  · intro e he hv
    have hm : e ∈ Store.whereEq (ZonaModel.delete col id_zona).store "id_zona" id_zona :=
      List.mem_filter.mpr ⟨he, (fieldEq_iff _ _ _).mpr hv⟩
    rw [hnil] at hm
    exact absurd hm (List.not_mem_nil _)
  · rw [hst]
    exact List.filter_sublist _
  · intro hids
    rw [hst]
    apply List.filter_congr
    intro e he
    by_cases hm : fieldEq "id_zona" id_zona e = true
    · have hin : e ∈ Store.whereEq col "id_zona" id_zona := List.mem_filter.mpr ⟨he, hm⟩
      have : e.id ∈ (Store.whereEq col "id_zona" id_zona).map Doc.id :=
        List.mem_map_of_mem _ hin
      simp [hm, this]
    · have hnot : e.id ∉ (Store.whereEq col "id_zona" id_zona).map Doc.id := by
        intro hmem
        obtain ⟨m, hmq, hmid⟩ := List.mem_map.mp hmem
        obtain ⟨hmcol, hmf⟩ := List.mem_filter.mp hmq
        have : m = e := eq_of_id_eq col hids m e hmcol he hmid
        rw [this] at hmf
        exact hm hmf
      simp [hm, hnot]
  · have hg : ∀ s, Store.whereEq s "id_zona" id_zona = [] →
        ZonaModel.getById s id_zona = none := by
      intro s h
      simp only [ZonaModel.getById, h]
    exact hg _ hnil
  · have hdel : ∀ s, Store.whereEq s "id_zona" id_zona = [] →
        (ZonaModel.delete s id_zona).ret = false := by
      intro s h
      simp only [ZonaModel.delete, h]
    exact hdel _ hnil

theorem C10_delete_removes_every_match_witness :
    (∃ d ∈ ([⟨"docA", [("id_zona", .str "me100")]⟩, ⟨"docB", [("id_zona", .str "me200")]⟩,
        ⟨"docC", [("id_zona", .str "me100")]⟩] : List Doc),
      getProp d.data "id_zona" = .str "me100") ∧
    (ZonaModel.delete [⟨"docA", [("id_zona", .str "me100")]⟩,
      ⟨"docB", [("id_zona", .str "me200")]⟩, ⟨"docC", [("id_zona", .str "me100")]⟩] "me100").store
      = [⟨"docB", [("id_zona", .str "me200")]⟩] ∧
    (ZonaModel.delete [⟨"docA", [("id_zona", .str "me100")]⟩,
      ⟨"docB", [("id_zona", .str "me200")]⟩, ⟨"docC", [("id_zona", .str "me100")]⟩] "me100").ret
      = true := by
  have hex : ∃ d ∈ ([⟨"docA", [("id_zona", .str "me100")]⟩,
      ⟨"docB", [("id_zona", .str "me200")]⟩, ⟨"docC", [("id_zona", .str "me100")]⟩] : List Doc),
      getProp d.data "id_zona" = .str "me100" :=
    ⟨⟨"docA", [("id_zona", .str "me100")]⟩, by simp, rfl⟩
  exact ⟨hex, rfl, (C10_delete_removes_every_match _ "me100" hex).1⟩

/-! ## Route deletion -/

theorem delete_middle_of_distinct (pre post : List Doc) (d : Doc)
    (h : Store.distinctIds (pre ++ d :: post)) :
    Store.delete (pre ++ d :: post) d.id = pre ++ post := by
  unfold Store.distinctIds at h
  rw [List.map_append, List.map_cons] at h
  have hmid := List.nodup_middle.mp h
  rw [List.nodup_cons] at hmid
  have hnot : d.id ∉ List.map Doc.id pre ++ List.map Doc.id post := hmid.1
  have hpre : ∀ e ∈ pre, decide (e.id ≠ d.id) = true := by
    intro e he
    have : e.id ≠ d.id := fun hid =>
      hnot (List.mem_append_left _ (hid ▸ List.mem_map_of_mem Doc.id he))
    simp [this]
  have hpost : ∀ e ∈ post, decide (e.id ≠ d.id) = true := by
    intro e he
    have : e.id ≠ d.id := fun hid =>
      hnot (List.mem_append_right _ (hid ▸ List.mem_map_of_mem Doc.id he))
    simp [this]
  unfold Store.delete
  rw [List.filter_append, List.filter_cons]
  rw [List.filter_eq_self.mpr hpre, List.filter_eq_self.mpr hpost]
  simp

/-- C11: when at least one stored route carries `id_ruta`, `RutaModel.delete` returns
true and removes exactly one document, the first one in store order whose `id_ruta`
equals it: the collection is `pre ++ d :: post` with no match in `pre` and `d` a match,
and, as the store assigns distinct identifiers, the collection afterwards is
`pre ++ post`, so every other document, later documents with the same `id_ruta`
included, stays unchanged and in the same order. -/
theorem C11_delete_removes_first_match (col : List Doc) (id_ruta : String)
    (hex : ∃ d ∈ col, getProp d.data "id_ruta" = .str id_ruta) :
    (RutaModel.delete col id_ruta).ret = true ∧
    ∃ pre d post,
      col = pre ++ d :: post ∧
      (∀ e ∈ pre, getProp e.data "id_ruta" ≠ .str id_ruta) ∧
      getProp d.data "id_ruta" = .str id_ruta ∧
      Store.whereEq (pre ++ post) "id_ruta" id_ruta = Store.whereEq post "id_ruta" id_ruta ∧
      (Store.distinctIds col →
        (RutaModel.delete col id_ruta).store = pre ++ post ∧
        ((RutaModel.delete col id_ruta).store).length + 1 = col.length) := by
  obtain ⟨d0, hd0, hv0⟩ := hex
  have hne : Store.whereEq col "id_ruta" id_ruta ≠ [] := by
    intro h
    unfold Store.whereEq at h
    rw [List.filter_eq_nil_iff] at h
    exact h d0 hd0 ((fieldEq_iff _ _ _).mpr hv0)
  obtain ⟨d, ds, hq⟩ := List.exists_cons_of_ne_nil hne
  have hq2 := hq
  unfold Store.whereEq at hq2
  obtain ⟨pre, post, hcol, hpre, hd, -⟩ := List.filter_eq_cons_iff.mp hq2
  have hpre2 : ∀ e ∈ pre, getProp e.data "id_ruta" ≠ .str id_ruta :=
    fun e he hv => hpre e he ((fieldEq_iff _ _ _).mpr hv)
  refine ⟨by simp only [RutaModel.delete, hq], pre, d, post, hcol, hpre2,
    (fieldEq_iff _ _ _).mp hd, ?_, ?_⟩
  · unfold Store.whereEq
    rw [List.filter_append]
    have : pre.filter (fieldEq "id_ruta" id_ruta) = [] := by
      rw [List.filter_eq_nil_iff]
      exact hpre
    rw [this, List.nil_append]
  · intro hids
    have hst : (RutaModel.delete col id_ruta).store = Store.delete col d.id := by
      simp only [RutaModel.delete, hq]
    rw [hst]
    subst hcol
    rw [delete_middle_of_distinct pre post d hids]
    refine ⟨rfl, ?_⟩
    simp
    omega

theorem C11_delete_removes_first_match_witness :
    (∃ d ∈ ([⟨"docA", [("id_ruta", .str "rut200")]⟩, ⟨"docB", [("id_ruta", .str "rut100")]⟩,
        ⟨"docC", [("id_ruta", .str "rut100")]⟩] : List Doc),
      getProp d.data "id_ruta" = .str "rut100") ∧
    (RutaModel.delete [⟨"docA", [("id_ruta", .str "rut200")]⟩,
      ⟨"docB", [("id_ruta", .str "rut100")]⟩, ⟨"docC", [("id_ruta", .str "rut100")]⟩]
      "rut100").store
      = [⟨"docA", [("id_ruta", .str "rut200")]⟩, ⟨"docC", [("id_ruta", .str "rut100")]⟩] ∧
    (RutaModel.delete [⟨"docA", [("id_ruta", .str "rut200")]⟩,
      ⟨"docB", [("id_ruta", .str "rut100")]⟩, ⟨"docC", [("id_ruta", .str "rut100")]⟩]
      "rut100").ret = true := by
  have hex : ∃ d ∈ ([⟨"docA", [("id_ruta", .str "rut200")]⟩,
      ⟨"docB", [("id_ruta", .str "rut100")]⟩, ⟨"docC", [("id_ruta", .str "rut100")]⟩] : List Doc),
      getProp d.data "id_ruta" = .str "rut100" :=
    ⟨⟨"docB", [("id_ruta", .str "rut100")]⟩, by simp, rfl⟩
  exact ⟨hex, rfl, (C11_delete_removes_first_match _ "rut100" hex).1⟩

/-! ## Routes of a zone -/

theorem getProp_entry_of_ne_id (d : Doc) (key : String) (h : key ≠ "id") :
    getProp (spread [("id", .str d.id)] d.data) key = getProp d.data key := by
  rw [getProp_spread]
  by_cases hh : hasProp d.data key = true
  · rw [if_pos hh]
  · rw [if_neg hh]
    have hf : hasProp d.data key = false := by simpa using hh
    rw [getProp_of_hasProp_false _ _ hf]
    simp [getProp, findProp, Ne.symm h]

/-- C12: `RutaModel.getRutasByZona(z)` walks the routes collection in store order and
returns one entry, the store identifier with the document's fields, for each document
whose `id_zona_asociada` equals `z` and nothing for any other document; the result is
the empty list when no document matches, and every entry returned carries
`id_zona_asociada` equal to `z`. -/
theorem C12_getRutasByZona_exact_matches (col : List Doc) (z : String) :
    RutaModel.getRutasByZona [] z = [] ∧
    (∀ d rest, getProp d.data "id_zona_asociada" = .str z →
      RutaModel.getRutasByZona (d :: rest) z
        = spread [("id", .str d.id)] d.data :: RutaModel.getRutasByZona rest z) ∧
    (∀ d rest, getProp d.data "id_zona_asociada" ≠ .str z →
      RutaModel.getRutasByZona (d :: rest) z = RutaModel.getRutasByZona rest z) ∧
    ((∀ d ∈ col, getProp d.data "id_zona_asociada" ≠ .str z) →
      RutaModel.getRutasByZona col z = []) ∧
    (RutaModel.getRutasByZona col z).length
      = (col.filter (fieldEq "id_zona_asociada" z)).length ∧
    (∀ entry ∈ RutaModel.getRutasByZona col z, getProp entry "id_zona_asociada" = .str z) := by
  refine ⟨rfl, ?_, ?_, ?_, ?_, ?_⟩
  · intro d rest hd
    have hf := (fieldEq_iff "id_zona_asociada" z d).mpr hd
    simp [RutaModel.getRutasByZona, Store.whereEq, List.filter_cons, hf]
  · intro d rest hd
    have hf : fieldEq "id_zona_asociada" z d = false := by
      cases h : fieldEq "id_zona_asociada" z d with
      | false => rfl
      | true => exact absurd ((fieldEq_iff _ _ _).mp h) hd
    simp [RutaModel.getRutasByZona, Store.whereEq, List.filter_cons, hf]
  · intro hnone
    simp [RutaModel.getRutasByZona, whereEq_eq_nil_of_absent col "id_zona_asociada" z hnone]
  · simp [RutaModel.getRutasByZona, Store.whereEq]
  · intro entry he
    unfold RutaModel.getRutasByZona at he
    obtain ⟨d, hd, rfl⟩ := List.mem_map.mp he
    unfold Store.whereEq at hd
    obtain ⟨-, hf⟩ := List.mem_filter.mp hd
    rw [getProp_entry_of_ne_id d _ (by decide)]
    exact (fieldEq_iff _ _ _).mp hf

theorem C12_getRutasByZona_exact_matches_witness :
    RutaModel.getRutasByZona
      [⟨"docA", [("id_ruta", .str "rut100"), ("id_zona_asociada", .str "me101")]⟩,
       ⟨"docB", [("id_ruta", .str "rut200"), ("id_zona_asociada", .str "me202")]⟩,
       ⟨"docC", [("id_ruta", .str "rut300"), ("id_zona_asociada", .str "me101")]⟩] "me101"
      = [[("id", .str "docA"), ("id_ruta", .str "rut100"), ("id_zona_asociada", .str "me101")],
         [("id", .str "docC"), ("id_ruta", .str "rut300"), ("id_zona_asociada", .str "me101")]] ∧
    RutaModel.getRutasByZona
      [⟨"docB", [("id_ruta", .str "rut200"), ("id_zona_asociada", .str "me202")]⟩] "me101"
      = [] :=
  ⟨rfl, (C12_getRutasByZona_exact_matches
    [⟨"docB", [("id_ruta", .str "rut200"), ("id_zona_asociada", .str "me202")]⟩] "me101").2.2.2.1
    (by intro d hd; simp at hd; subst hd; simp [getProp, findProp])⟩

/-! ## Route creation stamps the date -/

theorem findProp_nuevaRuta (r : ℚ) (instante : String) (rutaData : JSObj) (key : String) :
    findProp (RutaModel.nuevaRuta r instante rutaData) key
      = if key = "fecha_creacion" then some (.str (fechaActual instante))
        else if hasProp rutaData key = true then some (getProp rutaData key)
        else if key = "id_ruta" then some (.str ("rut" ++ toString (randomNum r)))
        else none := by
  unfold RutaModel.nuevaRuta
  rw [findProp_setProp, findProp_spread]
  by_cases hk : key = "fecha_creacion"
  · simp [hk]
  · rw [if_neg (Ne.symm hk), if_neg hk]
    by_cases hh : hasProp rutaData key = true
    · rw [if_pos hh, if_pos hh]
    · rw [if_neg hh, if_neg hh]
      by_cases hi : key = "id_ruta"
      · simp [hi, findProp]
      · simp [hi, findProp, Ne.symm hi]

theorem getProp_of_findProp (o : JSObj) (key : String) (v : JSVal)
    (h : findProp o key = some v) : hasProp o key = true ∧ getProp o key = v := by
  simp [hasProp, getProp, h]

/-- C14: for every route-create input and every current instant, the record
`RutaModel.create` persists and the record it returns contain every field of the input
with its input value, except that `fecha_creacion` is the current date whatever the input
supplies for it: the characters of the current instant's timestamp before its first `T`,
so `fecha` when the ISO timestamp is `fecha ++ "T" ++ hora`. -/
theorem C14_create_keeps_fields_and_stamps (col : List Doc) (r : ℚ) (instante : String)
    (pos : Nat) (docId : String) (rutaData : JSObj) :
    ∃ persisted : JSObj,
      (RutaModel.create col r instante pos docId rutaData).store
        = Store.add col pos docId persisted ∧
      (∀ key v, key ≠ "fecha_creacion" → findProp rutaData key = some v →
        findProp persisted key = some v ∧
        findProp (RutaModel.create col r instante pos docId rutaData).ret key = some v) ∧
      findProp persisted "fecha_creacion" = some (.str (fechaActual instante)) ∧
      findProp (RutaModel.create col r instante pos docId rutaData).ret "fecha_creacion"
        = some (.str (fechaActual instante)) ∧
      (∀ fecha hora : String, 'T' ∉ fecha.data → instante = fecha ++ "T" ++ hora →
        findProp persisted "fecha_creacion" = some (.str fecha) ∧
        findProp (RutaModel.create col r instante pos docId rutaData).ret "fecha_creacion"
          = some (.str fecha)) := by
  have hret : ∀ key v, findProp (RutaModel.nuevaRuta r instante rutaData) key = some v →
      findProp (RutaModel.create col r instante pos docId rutaData).ret key = some v := by
    intro key v h
    obtain ⟨hh, hg⟩ := getProp_of_findProp _ _ _ h
    unfold RutaModel.create
    simp only []
    rw [findProp_spread, if_pos hh, hg]
  have hfecha : findProp (RutaModel.nuevaRuta r instante rutaData) "fecha_creacion"
      = some (.str (fechaActual instante)) := by
    rw [findProp_nuevaRuta, if_pos rfl]
  refine ⟨RutaModel.nuevaRuta r instante rutaData, rfl, ?_, hfecha, hret _ _ hfecha, ?_⟩
  · intro key v hk hv
    obtain ⟨hh, hg⟩ := getProp_of_findProp _ _ _ hv
    have hp : findProp (RutaModel.nuevaRuta r instante rutaData) key = some v := by
      rw [findProp_nuevaRuta, if_neg hk, if_pos hh, hg]
    exact ⟨hp, hret _ _ hp⟩
  · intro fecha hora hT hi
    have hstamp : fechaActual instante = fecha := by
      rw [hi, fechaActual_of_timestamp fecha hora hT]
    rw [← hstamp]
    exact ⟨hfecha, hret _ _ hfecha⟩

theorem C14_create_keeps_fields_and_stamps_witness :
    (RutaModel.create [] 0 "2024-05-01T10:00:00.000Z" 0 "doc1"
      [("nombre_ruta", .str "Norte"), ("fecha_creacion", .str "1999-01-01")]).store
      = [⟨"doc1", [("id_ruta", .str "rut100"), ("nombre_ruta", .str "Norte"),
          ("fecha_creacion", .str "2024-05-01")]⟩] ∧
    ∃ persisted : JSObj,
      (RutaModel.create [] 0 "2024-05-01T10:00:00.000Z" 0 "doc1"
        [("nombre_ruta", .str "Norte"), ("fecha_creacion", .str "1999-01-01")]).store
        = Store.add [] 0 "doc1" persisted ∧
      findProp persisted "nombre_ruta" = some (.str "Norte") ∧
      findProp persisted "fecha_creacion" = some (.str "2024-05-01") := by
  obtain ⟨persisted, h1, h2, _, _, h3⟩ := C14_create_keeps_fields_and_stamps []
    0 "2024-05-01T10:00:00.000Z" 0 "doc1"
    [("nombre_ruta", .str "Norte"), ("fecha_creacion", .str "1999-01-01")]
  refine ⟨?_, persisted, h1, (h2 "nombre_ruta" (.str "Norte") (by decide) rfl).1,
    (h3 "2024-05-01" "10:00:00.000Z" (by decide) (by decide)).1⟩
  have e : randomNum 0 = 100 := randomNum_zero
  simp [RutaModel.create, RutaModel.nuevaRuta, Store.add, spread, getProp, findProp, setProp, e]
  exact ⟨rfl, rfl⟩

/-! ## Status mapping of the handlers -/

theorem cumpleMapeo_valor {α : Type} (esCreate : Bool) (call : Except String α)
    (resp : Response) (texto : String)
    (hok : ∀ v, call = .ok v → resp.status = if esCreate then 201 else 200)
    (herr : ∀ message, call = .error message →
      resp = ⟨500, .obj [("error", .str texto), ("detalle", .str message)]⟩) :
    cumpleMapeo esCreate (desenlaceValor call) resp := by
  cases call with
  | error message =>
    have h := herr message rfl
    subst h
    simp [cumpleMapeo, desenlaceValor]
  | ok v =>
    have h := hok v rfl
    cases esCreate <;> simp_all [cumpleMapeo, desenlaceValor]

theorem cumpleMapeo_null {α : Type} (call : Except String (Option α))
    (resp : Response) (texto noHay : String)
    (hok : ∀ v, call = .ok (some v) → resp.status = 200)
    (hnone : call = .ok none → resp = ⟨404, .obj [("error", .str noHay)]⟩)
    (herr : ∀ message, call = .error message →
      resp = ⟨500, .obj [("error", .str texto), ("detalle", .str message)]⟩) :
    cumpleMapeo false (desenlaceNull call) resp := by
  cases call with
  | error message =>
    have h := herr message rfl
    subst h
    simp [cumpleMapeo, desenlaceNull]
  | ok v =>
    cases v with
    | none =>
      have h := hnone rfl
      subst h
      simp [cumpleMapeo, desenlaceNull]
    | some w =>
      have h := hok w rfl
      simp_all [cumpleMapeo, desenlaceNull]

theorem cumpleMapeo_bool (call : Except String Bool)
    (resp : Response) (texto noHay : String)
    (hok : call = .ok true → resp.status = 200)
    (hnone : call = .ok false → resp = ⟨404, .obj [("error", .str noHay)]⟩)
    (herr : ∀ message, call = .error message →
      resp = ⟨500, .obj [("error", .str texto), ("detalle", .str message)]⟩) :
    cumpleMapeo false (desenlaceBool call) resp := by
  cases call with
  | error message =>
    have h := herr message rfl
    subst h
    simp [cumpleMapeo, desenlaceBool]
  | ok v =>
    cases v with
    | false =>
      have h := hnone rfl
      subst h
      simp [cumpleMapeo, desenlaceBool]
    | true =>
      have h := hok rfl
      simp_all [cumpleMapeo, desenlaceBool]

/-- C13: status mapping of the zone and route handlers. Whatever the request and however
the awaited repository call ends, a get-by-id, update or delete handler responds 404
exactly when the call resolves to the not-found signal (`null` or `false`), with a body
that has an `error` field only; every handler responds 500 exactly when the call throws,
with the thrown error's message in the body; otherwise the create handlers respond 201
and all other handlers respond 200. The handlers of create and of the lists never
respond 404. -/
theorem C13_handlers_status_mapping :
    (∀ body create, ∃ datos,
      cumpleMapeo true (desenlaceValor (create datos)) (ZonaController.createZona body create)) ∧
    (∀ getAll, cumpleMapeo false (desenlaceValor getAll) (ZonaController.getAllZonas getAll)) ∧
    (∀ id_zona getById,
      cumpleMapeo false (desenlaceNull (getById id_zona))
        (ZonaController.getZonaById id_zona getById)) ∧
    (∀ id_zona body update,
      cumpleMapeo false (desenlaceNull (update id_zona body))
        (ZonaController.updateZona id_zona body update)) ∧
    (∀ id_zona delete,
      cumpleMapeo false (desenlaceBool (delete id_zona))
        (ZonaController.deleteZona id_zona delete)) ∧
    (∀ getAll, cumpleMapeo false (desenlaceValor getAll) (RutaController.getAllRutas getAll)) ∧
    (∀ id_ruta getById,
      cumpleMapeo false (desenlaceNull (getById id_ruta))
        (RutaController.getRutaById id_ruta getById)) ∧
    (∀ body create, ∃ datos,
      cumpleMapeo true (desenlaceValor (create datos)) (RutaController.createRuta body create)) ∧
    (∀ id_ruta body update,
      cumpleMapeo false (desenlaceNull (update id_ruta body))
        (RutaController.updateRuta id_ruta body update)) ∧
    (∀ id_ruta delete,
      cumpleMapeo false (desenlaceBool (delete id_ruta))
        (RutaController.deleteRuta id_ruta delete)) ∧
    (∀ id_zona getByZona,
      cumpleMapeo false (desenlaceValor (getByZona id_zona))
        (RutaController.getRutasByZona id_zona getByZona)) ∧
    (∀ (α : Type) (call : Except String α), desenlaceValor call ≠ .noEncontrado) := by
  refine ⟨?_, ?_, ?_, ?_, ?_, ?_, ?_, ?_, ?_, ?_, ?_, ?_⟩
  · intro body create
    refine ⟨[("nombre_zona", getProp body "nombre_zona"), ("estado", getProp body "estado"),
      ("municipios_incluidos", getProp body "municipios_incluidos"),
      ("codigos_postales_relacionados", getProp body "codigos_postales_relacionados")],
      cumpleMapeo_valor true _ _ "Error al crear la zona" ?_ ?_⟩
    · intro v h; simp [ZonaController.createZona, h]
    · intro m h; simp [ZonaController.createZona, h]
  · intro getAll
    refine cumpleMapeo_valor false _ _ "Error al obtener las zonas" ?_ ?_
    · intro v h; simp [ZonaController.getAllZonas, h]
    · intro m h; simp [ZonaController.getAllZonas, h]
  · intro id_zona getById
    refine cumpleMapeo_null _ _ "Error al obtener la zona"
      "No se encontró la zona con el ID especificado" ?_ ?_ ?_
    · intro v h; simp [ZonaController.getZonaById, h]
    · intro h; simp [ZonaController.getZonaById, h]
    · intro m h; simp [ZonaController.getZonaById, h]
  · intro id_zona body update
    refine cumpleMapeo_null _ _ "Error al actualizar la zona"
      "No se encontró la zona con el ID especificado" ?_ ?_ ?_
    · intro v h; simp [ZonaController.updateZona, h]
    · intro h; simp [ZonaController.updateZona, h]
    · intro m h; simp [ZonaController.updateZona, h]
  · intro id_zona delete
    refine cumpleMapeo_bool _ _ "Error al eliminar la zona"
      "No se encontró la zona con el ID especificado" ?_ ?_ ?_
    · intro h; simp [ZonaController.deleteZona, h]
    · intro h; simp [ZonaController.deleteZona, h]
    · intro m h; simp [ZonaController.deleteZona, h]
  · intro getAll
    refine cumpleMapeo_valor false _ _ "Error al obtener las rutas" ?_ ?_
    · intro v h; simp [RutaController.getAllRutas, h]
    · intro m h; simp [RutaController.getAllRutas, h]
  · intro id_ruta getById
    refine cumpleMapeo_null _ _ "Error al obtener la ruta"
      "No se encontró la ruta con el ID especificado" ?_ ?_ ?_
    · intro v h; simp [RutaController.getRutaById, h]
    · intro h; simp [RutaController.getRutaById, h]
    · intro m h; simp [RutaController.getRutaById, h]
  · intro body create
    refine ⟨[("nombre_ruta", getProp body "nombre_ruta"),
      ("id_zona_asociada", getProp body "id_zona_asociada"),
      ("ubicaciones", getProp body "ubicaciones")],
      cumpleMapeo_valor true _ _ "Error al crear la ruta" ?_ ?_⟩
    · intro v h; simp [RutaController.createRuta, h]
    · intro m h; simp [RutaController.createRuta, h]
  · intro id_ruta body update
    refine cumpleMapeo_null _ _ "Error al actualizar la ruta"
      "No se encontró la ruta con el ID especificado" ?_ ?_ ?_
    · intro v h; simp [RutaController.updateRuta, h]
    · intro h; simp [RutaController.updateRuta, h]
    · intro m h; simp [RutaController.updateRuta, h]
  · intro id_ruta delete
    refine cumpleMapeo_bool _ _ "Error al eliminar la ruta"
      "No se encontró la ruta con el ID especificado" ?_ ?_ ?_
    · intro h; simp [RutaController.deleteRuta, h]
    · intro h; simp [RutaController.deleteRuta, h]
    · intro m h; simp [RutaController.deleteRuta, h]
  · intro id_zona getByZona
    refine cumpleMapeo_valor false _ _ "Error al obtener las rutas por zona" ?_ ?_
    · intro v h; simp [RutaController.getRutasByZona, h]
    · intro m h; simp [RutaController.getRutasByZona, h]
  · intro α call
    cases call <;> simp [desenlaceValor]

theorem C13_handlers_status_mapping_witness :
    (RutaController.getRutaById "rut100" (fun _ => .ok none)).status = 404 ∧
    (ZonaController.deleteZona "me100" (fun _ => .error "sin conexion")).status = 500 :=
  ⟨((C13_handlers_status_mapping.2.2.2.2.2.2.1 "rut100" (fun _ => .ok none)).1).mpr rfl,
   ((C13_handlers_status_mapping.2.2.2.2.1 "me100" (fun _ => .error "sin conexion")).2.1).mpr
     ⟨"sin conexion", rfl⟩⟩

/-! ## Route creation through the handler -/

theorem hasProp_nuevaRuta (r : ℚ) (instante : String) (rutaData : JSObj) (key : String) :
    hasProp (RutaModel.nuevaRuta r instante rutaData) key = true
      ↔ key = "fecha_creacion" ∨ hasProp rutaData key = true ∨ key = "id_ruta" := by
  unfold hasProp
  rw [findProp_nuevaRuta]
  by_cases hk : key = "fecha_creacion"
  · simp [hk]
  · by_cases hh : hasProp rutaData key = true
    · have hh2 : (findProp rutaData key).isSome = true := hh
      simp [hk, hh, hh2]
    · have hh2 : (findProp rutaData key).isSome = false := by simpa [hasProp] using hh
      by_cases hi : key = "id_ruta"
      · subst hi
        simp [hh]
      · simp [hk, hh, hh2, hi]

theorem getProp_nuevaRuta_id_ruta (r : ℚ) (instante : String) (rutaData : JSObj)
    (hid : hasProp rutaData "id_ruta" = false) :
    getProp (RutaModel.nuevaRuta r instante rutaData) "id_ruta"
      = .str ("rut" ++ toString (randomNum r)) := by
  have h := findProp_nuevaRuta r instante rutaData "id_ruta"
  rw [if_neg (by decide), hid] at h
  simp at h
  simp [getProp, h]

theorem getProp_create_ret_id_ruta (col : List Doc) (r : ℚ) (instante : String) (pos : Nat)
    (docId : String) (rutaData : JSObj) (hid : hasProp rutaData "id_ruta" = false) :
    getProp (RutaModel.create col r instante pos docId rutaData).ret "id_ruta"
      = .str ("rut" ++ toString (randomNum r)) := by
  have hh : hasProp (RutaModel.nuevaRuta r instante rutaData) "id_ruta" = true :=
    (hasProp_nuevaRuta r instante rutaData "id_ruta").mpr (Or.inr (Or.inr rfl))
  unfold RutaModel.create
  simp only []
  rw [getProp_spread, if_pos hh, getProp_nuevaRuta_id_ruta r instante rutaData hid]

/-- C16: through the HTTP create handler the caller cannot choose the route identifier.
For every request body, `RutaController.createRuta` calls `RutaModel.create` with an
object `datos` whose fields are exactly `nombre_ruta`, `id_zona_asociada` and
`ubicaciones`, each read from the body; so, when the store call succeeds and the draw is
a binary64 number `0 ≤ r < 1`, the response is 201 with `id_ruta` the generated `"rut"` + 100..999, and the
persisted document has exactly the fields `id_ruta`, `nombre_ruta`, `id_zona_asociada`,
`ubicaciones` and `fecha_creacion`, its `id_ruta` being the generated one. -/
theorem C16_createRuta_generated_id (col : List Doc) (r : ℚ) (instante : String) (pos : Nat)
    (docId : String) (body : JSObj) (h0 : 0 ≤ r) (h1 : r < 1) (hd : esDouble r) :
    ∃ datos persisted : JSObj,
      (∀ create, RutaController.createRuta body create
        = RutaController.createRuta body (fun _ => create datos)) ∧
      (∀ key, hasProp datos key = true
        ↔ key ∈ ["nombre_ruta", "id_zona_asociada", "ubicaciones"]) ∧
      (∀ key ∈ ["nombre_ruta", "id_zona_asociada", "ubicaciones"],
        getProp datos key = getProp body key) ∧
      RutaController.createRuta body
          (fun d => .ok (RutaModel.create col r instante pos docId d).ret)
        = ⟨201, .obj [("mensaje", .str "Ruta creada exitosamente"),
            ("id_ruta", .str ("rut" ++ toString (randomNum r)))]⟩ ∧
      esIdGenerado "rut" (.str ("rut" ++ toString (randomNum r))) ∧
      (RutaModel.create col r instante pos docId datos).store
        = Store.add col pos docId persisted ∧
      (∀ key, hasProp persisted key = true
        ↔ key ∈ ["id_ruta", "nombre_ruta", "id_zona_asociada", "ubicaciones",
            "fecha_creacion"]) ∧
      getProp persisted "id_ruta" = .str ("rut" ++ toString (randomNum r)) := by
  obtain ⟨b1, b2⟩ := randomNum_bounds r h0 h1 hd
  have hkeys : ∀ key, hasProp [("nombre_ruta", getProp body "nombre_ruta"),
      ("id_zona_asociada", getProp body "id_zona_asociada"),
      ("ubicaciones", getProp body "ubicaciones")] key = true
        ↔ key ∈ ["nombre_ruta", "id_zona_asociada", "ubicaciones"] := by
    intro key
    by_cases k1 : "nombre_ruta" = key
    · subst k1; simp [hasProp, findProp]
    · by_cases k2 : "id_zona_asociada" = key
      · subst k2; simp [hasProp, findProp]
      · by_cases k3 : "ubicaciones" = key
        · subst k3; simp [hasProp, findProp]
        · simp [hasProp, findProp, k1, k2, k3, Ne.symm k1, Ne.symm k2, Ne.symm k3]
  have hnoid : hasProp [("nombre_ruta", getProp body "nombre_ruta"),
      ("id_zona_asociada", getProp body "id_zona_asociada"),
      ("ubicaciones", getProp body "ubicaciones")] "id_ruta" = false := by
    simp [hasProp, findProp]
  refine ⟨[("nombre_ruta", getProp body "nombre_ruta"),
      ("id_zona_asociada", getProp body "id_zona_asociada"),
      ("ubicaciones", getProp body "ubicaciones")],
    RutaModel.nuevaRuta r instante [("nombre_ruta", getProp body "nombre_ruta"),
      ("id_zona_asociada", getProp body "id_zona_asociada"),
      ("ubicaciones", getProp body "ubicaciones")],
    ?_, hkeys, ?_, ?_, ⟨_, b1, b2, rfl⟩, rfl, ?_,
    getProp_nuevaRuta_id_ruta r instante _ hnoid⟩
  · intro create
    rfl
  · intro key hk
    simp at hk
    rcases hk with rfl | rfl | rfl <;> simp [getProp, findProp]
  · have hret := getProp_create_ret_id_ruta col r instante pos docId _ hnoid
    simp only [RutaController.createRuta, hret]
  · intro key
    rw [hasProp_nuevaRuta, hkeys]
    simp
    tauto

theorem C16_createRuta_generated_id_witness :
    (0 : ℚ) ≤ 1/2 ∧ (1/2 : ℚ) < 1 ∧ esDouble (1/2) ∧
    RutaController.createRuta [("nombre_ruta", .str "Norte"), ("id_ruta", .str "elegido")]
        (fun d => .ok (RutaModel.create [] (1/2) "2024-05-01T10:00:00.000Z" 0 "doc1" d).ret)
      = ⟨201, .obj [("mensaje", .str "Ruta creada exitosamente"),
          ("id_ruta", .str "rut550")]⟩ := by
  obtain ⟨_, _, _, _, _, h, _⟩ := C16_createRuta_generated_id [] (1/2)
    "2024-05-01T10:00:00.000Z" 0 "doc1"
    [("nombre_ruta", .str "Norte"), ("id_ruta", .str "elegido")] (by norm_num) (by norm_num)
    esDouble_half
  have e : randomNum (1/2) = 550 := randomNum_half
  refine ⟨by norm_num, by norm_num, esDouble_half, ?_⟩
  rw [h, e]
  rfl

/-! ## Listing the routes -/

/-- What `RutaModel.getAll` returns on any collection: one entry per stored document, in
store order, with the document's own fields; the entry's `id` is the store identifier
when the document has no `id` field of its own, and the document's `id` field when it
has one. -/
theorem getAll_entries (col : List Doc) :
    (RutaModel.getAll col).length = col.length ∧
    ∀ (i : Nat) (d : Doc), col[i]? = some d →
      ∃ entry, (RutaModel.getAll col)[i]? = some entry ∧
        (∀ key, key ≠ "id" → findProp entry key = findProp d.data key) ∧
        (hasProp d.data "id" = false → getProp entry "id" = .str d.id) ∧
        (hasProp d.data "id" = true → getProp entry "id" = getProp d.data "id") := by
  refine ⟨by simp [RutaModel.getAll], ?_⟩
  intro i d hi
  refine ⟨spread [("id", .str d.id)] d.data, ?_, ?_, ?_, ?_⟩
  · unfold RutaModel.getAll
    rw [List.getElem?_map, hi]
    rfl
  · intro key hk
    rw [findProp_spread]
    by_cases hh : hasProp d.data key = true
    · rw [if_pos hh]
      unfold hasProp at hh
      unfold getProp
      cases hf : findProp d.data key with
      | none => simp [hf] at hh
      | some v => rfl
    · rw [if_neg hh]
      have hn : findProp d.data key = none := by simpa [hasProp] using hh
      rw [hn]
      simp [findProp, Ne.symm hk]
  · intro hno
    rw [getProp_spread, hno]
    simp [getProp, findProp]
  · intro hyes
    rw [getProp_spread, if_pos hyes]

/-- C15 at a reachable state: a route is created and then updated with an input that
carries an `id` field. The state is reachable from the empty collection, its one document
has the store identifier `"docA"`, and the entry `RutaModel.getAll` returns for it has
`id` equal to `"falso"`, the field of the document, not the store identifier. -/
theorem C15_getAll_id_overridden :
    RutaModel.Reachable
      (RutaModel.update
        (RutaModel.create [] 0 "2024-05-01T10:00:00.000Z" 0 "docA"
          [("nombre_ruta", .str "Norte")]).store
        "2024-05-02T08:30:00.000Z" "rut100" [("id", .str "falso")]).store ∧
    (RutaModel.update
        (RutaModel.create [] 0 "2024-05-01T10:00:00.000Z" 0 "docA"
          [("nombre_ruta", .str "Norte")]).store
        "2024-05-02T08:30:00.000Z" "rut100" [("id", .str "falso")]).store
      = [⟨"docA", [("id_ruta", .str "rut100"), ("nombre_ruta", .str "Norte"),
          ("fecha_creacion", .str "2024-05-01"), ("id", .str "falso"),
          ("fecha_actualizacion", .str "2024-05-02")]⟩] ∧
    RutaModel.getAll
        [⟨"docA", [("id_ruta", .str "rut100"), ("nombre_ruta", .str "Norte"),
          ("fecha_creacion", .str "2024-05-01"), ("id", .str "falso"),
          ("fecha_actualizacion", .str "2024-05-02")]⟩]
      = [[("id", .str "falso"), ("id_ruta", .str "rut100"), ("nombre_ruta", .str "Norte"),
          ("fecha_creacion", .str "2024-05-01"), ("fecha_actualizacion", .str "2024-05-02")]] ∧
    getProp [("id", .str "falso"), ("id_ruta", .str "rut100"), ("nombre_ruta", .str "Norte"),
        ("fecha_creacion", .str "2024-05-01"), ("fecha_actualizacion", .str "2024-05-02")] "id"
      ≠ .str "docA" := by
  have e : randomNum 0 = 100 := randomNum_zero
  have h0 : (RutaModel.create [] 0 "2024-05-01T10:00:00.000Z" 0 "docA"
      [("nombre_ruta", .str "Norte")]).store
      = [⟨"docA", [("id_ruta", .str "rut100"), ("nombre_ruta", .str "Norte"),
          ("fecha_creacion", .str "2024-05-01")]⟩] := by
    simp [RutaModel.create, RutaModel.nuevaRuta, Store.add, spread, getProp, findProp, setProp, e]
    exact ⟨rfl, rfl⟩
  refine ⟨?_, ?_, rfl, ?_⟩
  · exact RutaModel.Reachable.update _ _ _ _
      (RutaModel.Reachable.create [] 0 _ 0 "docA" _ RutaModel.Reachable.empty
        (by norm_num) (by norm_num) esDouble_zero (by simp))
  · rw [h0]
    rfl
  · simp [getProp, findProp]
